import Mathlib

/-!
Verification of the LLL (luxbin-lang) language core against its
natural-language specification.

The development shallowly embeds the tree-walking interpreter of
`src/interpreter.ts`, the error formatting of `src/errors.ts`, the AST shape
of `src/types.ts`, the stdlib dispatch contract of `src/stdlib/*`, and the
module loader (`ModuleLoader`), and proves or refutes the frozen behavioural
claims about them.

Modelling conventions:
* JS numbers (IEEE-754 doubles) are modelled as exact rationals `ℚ`.  All
  numeric operations the claims exercise (negation, floor, comparisons,
  equality with zero) are exact on doubles, so the idealisation is faithful
  on the fragment used.
* JS objects with identity (arrays, closures, environments) live in explicit
  heaps inside `State`; values hold indices, so aliasing and in-place
  mutation behave exactly as in the source.
* The host exception mechanism is modelled by the `Res` sum: `ok` carries the
  result and the mutated interpreter state, `err` carries the thrown error
  and the state at throw time (the source mutates `steps`/`callStack`/heaps
  in place, so they survive a throw).  `timeout` is an artefact of the `fuel`
  parameter that makes the recursion structural; the source has no such
  outcome, and every theorem is about runs that do not time out.
-/

namespace Luxbin

/-! ## AST (`src/types.ts`)

Node shapes are transcribed from the TypeScript interfaces.  Note which nodes
carry `line`/`column` fields in the source: every statement and
`CallExpression` do; `BinaryExpression`, `UnaryExpression`, `IndexExpression`,
`ArrayLiteral`, the four literal nodes and `Identifier` do not. -/

inductive Expression where
  | binary (operator : String) (left right : Expression)
  | unary (operator : String) (operand : Expression)
  | call (callee : String) (args : List Expression) (line column : Nat)
  | indexE (object idx : Expression)
  | arrayLit (elements : List Expression)
  | numberLit (value : ℚ) (isFloat : Bool)
  | stringLit (value : String)
  | booleanLit (value : Bool)
  | nilLit
  | ident (name : String)
deriving Repr

inductive Statement where
  | letDecl (name : String) (tyAnn : Option String)
      (value : Option Expression) (line column : Nat)
  | constDecl (name : String) (tyAnn : Option String)
      (value : Expression) (line column : Nat)
  | assign (name : String) (value : Expression) (line column : Nat)
  | indexAssign (name : String) (idx : Expression) (value : Expression)
      (line column : Nat)
  | ifStmt (condition : Expression) (consequent : List Statement)
      (alternateConditions : List (Expression × List Statement))
      (alternate : Option (List Statement)) (line column : Nat)
  | whileStmt (condition : Expression) (body : List Statement) (line column : Nat)
  | forStmt (v : String) (iterable : Expression) (body : List Statement)
      (line column : Nat)
  | funcDecl (name : String) (params : List (String × Option String))
      (returnType : Option String) (body : List Statement) (line column : Nat)
  | returnStmt (value : Option Expression) (line column : Nat)
  | breakStmt (line column : Nat)
  | continueStmt (line column : Nat)
  | importStmt (path : String) (line column : Nat)
  | tryCatch (tryBody : List Statement) (catchVariable : String)
      (catchBody : List Statement) (line column : Nat)
  | exprStmt (expression : Expression) (line column : Nat)
deriving Repr

structure Program where
  body : List Statement
deriving Repr

/-! ## Runtime values and state (`src/interpreter.ts`) -/

/-- `LuxValue` from interpreter.ts line 12.  Arrays and user functions are JS
objects with identity: the value holds an index into the corresponding heap
in `State`.  A built-in is identified by its registry name (one registry
object exists per name in a run, so name equality is object identity). -/
inductive LuxValue where
  | num (n : ℚ)
  | str (s : String)
  | bool (b : Bool)
  | nil
  | arr (ref : Nat)
  | funcRef (ref : Nat)
  | builtin (name : String)
deriving DecidableEq, Repr

/-- `LuxFunction` (interpreter.ts 14-18): declaration pieces plus the captured
environment reference. -/
structure Closure where
  name : String
  params : List (String × Option String)
  returnType : Option String
  body : List Statement
  closure : Nat
deriving Repr

/-- `StackFrame` from errors.ts 55-60. -/
structure StackFrame where
  name : String
  file : String
  line : Nat
  column : Nat
deriving DecidableEq, Repr

/-- One `Environment` frame (interpreter.ts 40-46): the `vars` map (a JS
`Map`, so insertion-ordered with at most one entry per key; the `Bool` is the
`constant` flag) and the optional parent reference. -/
structure EnvData where
  vars : List (String × LuxValue × Bool)
  parent : Option Nat
deriving DecidableEq, Repr

/-- The interpreter's mutable state: the environment/array/closure heaps, the
`steps` counter and `callStack` local to the current `interpret` invocation,
the shared `output` buffer, and the `ModuleLoader` fields (`cache`, `loading`,
the loader's global environment reference).  `execCount` is pure
instrumentation: it counts, per resolved path, how many times a module's
program was handed to `interpret`; no semantics reads it. -/
structure State where
  envs : List EnvData
  arrays : List (List LuxValue)
  closures : List Closure
  steps : Nat
  callStack : List StackFrame
  output : List String
  cache : List (String × Nat)
  loading : List String
  globalRef : Nat
  execCount : List (String × Nat)
deriving Repr

/-- Errors: `RuntimeError` (errors.ts 34-53) carries position and a call-stack
snapshot; a bare JS `Error` (thrown by `Environment`, the stdlib and the
loader) carries only its message. -/
inductive LuxErr where
  | runtime (msg file : String) (line column : Nat) (stack : List StackFrame)
  | plain (msg : String)
deriving DecidableEq, Repr

/-- `e.message` as read by the catch clause of try/catch (interpreter.ts 260):
the undecorated message string. -/
def LuxErr.message : LuxErr → String
  | .runtime m _ _ _ _ => m
  | .plain m => m

/-- Block/statement completion (interpreter.ts 28-36): normal completion or
one of the three control-flow signals. -/
inductive Ctl where
  | normal
  | ret (v : LuxValue)
  | brk
  | cont
deriving DecidableEq, Repr

/-- Outcome of one evaluator call.  `err` keeps the state as mutated up to the
throw.  `timeout` means the structural fuel ran out (embedding artefact). -/
inductive Res (α : Type) where
  | ok (a : α) (st : State)
  | err (e : LuxErr) (st : State)
  | timeout

/-! ## Environment operations (interpreter.ts 40-86)

`define` writes into the current frame only; `get`/`set`/`has` walk the
parent chain.  The chain walk takes fuel (one more than the number of
environments suffices: parent references always point to earlier heap
entries, so chains cannot cycle). -/

def lookupName {α : Type} : List (String × α) → String → Option α
  | [], _ => none
  | (k, a) :: rest, name => if k = name then some a else lookupName rest name

/-- JS `Map.set`: overwrite in place (keeping insertion order) or append. -/
def varsSet : List (String × LuxValue × Bool) → String → LuxValue → Bool →
    List (String × LuxValue × Bool)
  | [], name, v, c => [(name, v, c)]
  | (k, w, b) :: rest, name, v, c =>
    if k = name then (k, v, c) :: rest else (k, w, b) :: varsSet rest name v c

/-- `Environment.define` (interpreter.ts 48-50): unconditional `Map.set`; no
constness check. -/
def envDefine (st : State) (e : Nat) (name : String) (v : LuxValue) (c : Bool) :
    State :=
  match st.envs.get? e with
  | none => st
  | some ed => { st with envs := st.envs.set e { ed with vars := varsSet ed.vars name v c } }

def envGetAux : Nat → State → Nat → String → Option LuxValue
  | 0, _, _, _ => none
  | fuel+1, st, e, name =>
    match st.envs.get? e with
    | none => none
    | some ed =>
      match lookupName ed.vars name with
      | some (v, _) => some v
      | none =>
        match ed.parent with
        | some p => envGetAux fuel st p name
        | none => none

/-- `Environment.get` (interpreter.ts 52-57); `none` models the thrown
`Undefined variable: 'name'` error. -/
def envGet (st : State) (e : Nat) (name : String) : Option LuxValue :=
  envGetAux (st.envs.length + 1) st e name

def envSetAux : Nat → State → Nat → String → LuxValue → Except String State
  | 0, _, _, name, _ => .error ("Undefined variable: '" ++ name ++ "'")
  | fuel+1, st, e, name, v =>
    match st.envs.get? e with
    | none => .error ("Undefined variable: '" ++ name ++ "'")
    | some ed =>
      match lookupName ed.vars name with
      | some (_, c) =>
        if c then .error ("Cannot reassign constant: '" ++ name ++ "'")
        else .ok { st with envs := st.envs.set e { ed with vars := varsSet ed.vars name v false } }
      | none =>
        match ed.parent with
        | some p => envSetAux fuel st p name v
        | none => .error ("Undefined variable: '" ++ name ++ "'")

/-- `Environment.set` (interpreter.ts 59-71): walk to the owning frame;
reject constants; no implicit definition. -/
def envSet (st : State) (e : Nat) (name : String) (v : LuxValue) :
    Except String State :=
  envSetAux (st.envs.length + 1) st e name v

def envHasAux : Nat → State → Nat → String → Bool
  | 0, _, _, _ => false
  | fuel+1, st, e, name =>
    match st.envs.get? e with
    | none => false
    | some ed =>
      match lookupName ed.vars name with
      | some _ => true
      | none =>
        match ed.parent with
        | some p => envHasAux fuel st p name
        | none => false

/-- `Environment.has` (interpreter.ts 73-77). -/
def envHas (st : State) (e : Nat) (name : String) : Bool :=
  envHasAux (st.envs.length + 1) st e name

/-- `Environment.getOwnNames` (interpreter.ts 79-81). -/
def getOwnNames (st : State) (e : Nat) : List String :=
  match st.envs.get? e with
  | none => []
  | some ed => ed.vars.map (fun p => p.1)

/-- `Environment.getOwnEntry` (interpreter.ts 83-85). -/
def getOwnEntry (st : State) (e : Nat) (name : String) :
    Option (LuxValue × Bool) :=
  match st.envs.get? e with
  | none => none
  | some ed => lookupName ed.vars name

/-- `new Environment(parent)`: append a fresh empty frame, returning its
reference. -/
def allocEnv (st : State) (parent : Option Nat) : State × Nat :=
  ({ st with envs := st.envs ++ [⟨[], parent⟩] }, st.envs.length)

def allocArray (st : State) (elems : List LuxValue) : State × Nat :=
  ({ st with arrays := st.arrays ++ [elems] }, st.arrays.length)

def allocClosure (st : State) (c : Closure) : State × Nat :=
  ({ st with closures := st.closures ++ [c] }, st.closures.length)

/-! ## Truthiness and string conversion (interpreter.ts 438-466) -/

/-- `isTruthy` (interpreter.ts 438-444): `null`, `false`, `0` and `""` are
falsy; everything else (arrays and functions included) is truthy. -/
def isTruthy : LuxValue → Bool
  | .nil => false
  | .bool b => b
  | .num n => if n = 0 then false else true
  | .str s => if s = "" then false else true
  | _ => true

/-- `String(number)` for the values this development evaluates concretely:
integers print as in JS; finite decimals print with a decimal point (digits
beyond 30 places, which no exactly-representable double in the modelled
fragment needs, are truncated). -/
def fracDigits : Nat → ℚ → String
  | 0, _ => ""
  | n+1, q =>
    if q = 0 then ""
    else
      let q10 := q * 10
      let d := Rat.floor q10
      toString d ++ fracDigits n (q10 - (d : ℚ))

def numToString (q : ℚ) : String :=
  if q.den = 1 then toString q.num
  else
    let sign := if q < 0 then "-" else ""
    let a := if q < 0 then -q else q
    let ip := Rat.floor a
    sign ++ toString ip ++ "." ++ fracDigits 30 (a - (ip : ℚ))

/-- `stringify` (interpreter.ts 446-457), used by `+` concatenation: arrays
render recursively, user functions as `<function NAME>`, built-ins as
`<builtin NAME>`.  The fuel bounds array nesting (acyclic nesting is at most
the number of live arrays deep). -/
def stringifyAux (st : State) : Nat → LuxValue → String
  | _, .nil => "nil"
  | _, .bool b => if b then "true" else "false"
  | _, .num n => numToString n
  | _, .str s => s
  | 0, .arr _ => "[...]"
  | fuel+1, .arr r =>
    let elems := (st.arrays.get? r).getD []
    "[" ++ String.intercalate ", " (elems.map (stringifyAux st fuel)) ++ "]"
  | _, .funcRef r => "<function " ++ ((st.closures.get? r).map Closure.name).getD "" ++ ">"
  | _, .builtin n => "<builtin " ++ n ++ ">"

def stringify (st : State) (v : LuxValue) : String :=
  stringifyAux st (st.arrays.length + 1) v

/-- The stdlib's local `stringify` (io.ts/type.ts/array.ts 5-12): identical
except that functions and built-ins fall through to JS `String(object)`,
which yields `[object Object]`. -/
def stdlibStringifyAux (st : State) : Nat → LuxValue → String
  | _, .nil => "nil"
  | _, .bool b => if b then "true" else "false"
  | _, .num n => numToString n
  | _, .str s => s
  | 0, .arr _ => "[...]"
  | fuel+1, .arr r =>
    let elems := (st.arrays.get? r).getD []
    "[" ++ String.intercalate ", " (elems.map (stdlibStringifyAux st fuel)) ++ "]"
  | _, .funcRef _ => "[object Object]"
  | _, .builtin _ => "[object Object]"

def stdlibStringify (st : State) (v : LuxValue) : String :=
  stdlibStringifyAux st (st.arrays.length + 1) v

/-- `typeOf` (interpreter.ts 459-466). -/
def typeOf : LuxValue → String
  | .nil => "nil"
  | .arr _ => "array"
  | .funcRef _ => "function"
  | .builtin _ => "builtin"
  | .num _ => "number"
  | .str _ => "string"
  | .bool _ => "boolean"

/-! ## Error formatting (`src/errors.ts`) -/

/-- `LuxbinError.format` (errors.ts 14-17), used by `LexerError` and
`ParseError` (for which `name` is the error-kind string): position appended
inline, only when `line > 0`. -/
def luxbinErrorFormat (name msg file : String) (line column : Nat) : String :=
  let loc := if line > 0 then " at " ++ file ++ ":" ++ toString line ++ ":" ++ toString column else ""
  name ++ ": " ++ msg ++ loc

/-- One call-frame line of `RuntimeError.format` (errors.ts 48-50). -/
def frameLine (f : StackFrame) : String :=
  "\n  at " ++ f.name ++ " (" ++ f.file ++ ":" ++ toString f.line ++ ":" ++ toString f.column ++ ")"

/-- `RuntimeError.format` (errors.ts 43-52): the position goes on its own
`  at FILE:LINE:COLUMN` line, only when `line > 0`, followed by one line per
recorded call frame. -/
def runtimeErrorFormat (msg file : String) (line column : Nat)
    (stack : List StackFrame) : String :=
  let result := "RuntimeError: " ++ msg
  let result :=
    if line > 0 then result ++ "\n  at " ++ file ++ ":" ++ toString line ++ ":" ++ toString column
    else result
  stack.foldl (fun acc f => acc ++ frameLine f) result

/-- The top-level catch of `interpret` (interpreter.ts 427-433): a
`RuntimeError` surfaces via `format()`, any other `Error` via its bare
message. -/
def formatError : LuxErr → String
  | .runtime msg file line column stack => runtimeErrorFormat msg file line column stack
  | .plain msg => msg

/-! ## Binary operators (interpreter.ts 374-420) -/

/-- JS `%`: remainder with the sign of the dividend,
`a - b * trunc(a / b)`. -/
def ratTrunc (q : ℚ) : ℤ :=
  if q < 0 then -Rat.floor (-q) else Rat.floor q

def jsMod (a b : ℚ) : ℚ := a - b * ((ratTrunc (a / b) : ℚ))

/-- `Math.pow` restricted to the exact fragment: integral exponents.  A
non-integral exponent produces an irrational (or NaN) double, which is
outside the exact-rational fragment this development evaluates; no claim
exercises it. -/
def jsPow (a b : ℚ) : ℚ :=
  if b.den = 1 then a ^ (b.num) else 0

/-- `typeof value === "string"`. -/
def isStrVal : LuxValue → Bool
  | .str _ => true
  | _ => false

/-- `evaluateBinaryOp` (interpreter.ts 374-420).  Pure except for reading the
heaps (for stringification and reference equality); errors carry position
`0,0` and the current call-stack snapshot, exactly as in the source. -/
def evaluateBinaryOp (file : String) (st : State) (op : String)
    (left right : LuxValue) : Except LuxErr LuxValue :=
  -- String concatenation: `+` with at least one string operand.
  if op = "+" ∧ (isStrVal left || isStrVal right) = true then
    .ok (.str (stringify st left ++ stringify st right))
  else
    match left, right with
    | .num a, .num b =>
      match op with
      | "+" => .ok (.num (a + b))
      | "-" => .ok (.num (a - b))
      | "*" => .ok (.num (a * b))
      | "/" =>
        if b = 0 then .error (.runtime "Division by zero" file 0 0 st.callStack)
        else .ok (.num (a / b))
      | "%" =>
        if b = 0 then .error (.runtime "Division by zero" file 0 0 st.callStack)
        else .ok (.num (jsMod a b))
      | "^" => .ok (.num (jsPow a b))
      | "<" => .ok (.bool (decide (a < b)))
      | ">" => .ok (.bool (decide (b < a)))
      | "<=" => .ok (.bool (decide (a ≤ b)))
      | ">=" => .ok (.bool (decide (b ≤ a)))
      | "==" => .ok (.bool (decide (a = b)))
      | "!=" => .ok (.bool (decide (a ≠ b)))
      | _ => fallback file st op (.num a) (.num b)
    | l, r => fallback file st op l r
where
  /-- The tail of `evaluateBinaryOp` past the all-numeric switch: `==`/`!=`
  by value identity for every type, lexicographic comparisons for two
  strings, otherwise the `Cannot apply operator` error. -/
  fallback (file : String) (st : State) (op : String) (l r : LuxValue) :
      Except LuxErr LuxValue :=
    if op = "==" then .ok (.bool (decide (l = r)))
    else if op = "!=" then .ok (.bool (decide (l ≠ r)))
    else
      match l, r with
      | .str a, .str b =>
        match op with
        | "<" => .ok (.bool (decide (a < b)))
        | ">" => .ok (.bool (decide (b < a)))
        | "<=" => .ok (.bool (decide (a ≤ b)))
        | ">=" => .ok (.bool (decide (b ≤ a)))
        | _ =>
          .error (.runtime ("Cannot apply operator '" ++ op ++ "' to " ++ typeOf l ++ " and " ++ typeOf r)
            file 0 0 st.callStack)
      | _, _ =>
        .error (.runtime ("Cannot apply operator '" ++ op ++ "' to " ++ typeOf l ++ " and " ++ typeOf r)
          file 0 0 st.callStack)

/-! ## Index reads (interpreter.ts 354-370) -/

/-- The `IndexExpression` body: numeric index required, `Math.floor`
truncation, bounds check against the live length, single-character substring
for strings. -/
def indexRead (file : String) (st : State) (obj iv : LuxValue) :
    Except LuxErr LuxValue :=
  match obj with
  | .arr r =>
    match iv with
    | .num n =>
      let idx := Rat.floor n
      let contents := (st.arrays.get? r).getD []
      if idx < 0 ∨ ((contents.length : ℤ) ≤ idx) then
        .error (.runtime ("Index " ++ toString idx ++ " out of bounds (length " ++ toString contents.length ++ ")")
          file 0 0 st.callStack)
      else .ok (contents.getD idx.toNat .nil)
    | _ => .error (.runtime "Array index must be a number" file 0 0 st.callStack)
  | .str s =>
    match iv with
    | .num n =>
      let idx := Rat.floor n
      if idx < 0 ∨ ((s.length : ℤ) ≤ idx) then
        .error (.runtime ("Index " ++ toString idx ++ " out of bounds (length " ++ toString s.length ++ ")")
          file 0 0 st.callStack)
      else .ok (.str (String.singleton (s.data.getD idx.toNat ' ')))
    | _ => .error (.runtime "String index must be a number" file 0 0 st.callStack)
  | _ => .error (.runtime "Index operator requires an array or string" file 0 0 st.callStack)

/-! ## Built-ins (`src/stdlib`)

The modelled registry covers the io/type/array built-ins the claims exercise
(`print`, `println`, `to_string`, `push`, `pop`).  The remaining registries
(math, string, fs, net, os, quantum) are host-facing collaborators that the
spec's scope section excludes; the core calls every built-in through the one
dispatch contract modelled here, so nothing about the claims depends on
them. -/

def builtinNames : List String := ["print", "println", "to_string", "push", "pop"]

/-- Built-in application.  A `.error` models a thrown plain `Error` (our
built-ins throw before mutating, so the state at throw is the entry state);
the evaluator wraps it with the call site's position. -/
def applyBuiltin (st : State) (name : String) (args : List LuxValue) :
    Except String (LuxValue × State) :=
  match name with
  | "print" =>
    .ok (.nil, { st with output := st.output ++ [String.intercalate " " (args.map (stdlibStringify st))] })
  | "println" =>
    .ok (.nil, { st with output := st.output ++ [String.intercalate " " (args.map (stdlibStringify st))] })
  | "to_string" =>
    match args with
    | [] => .ok (.str "undefined", st)
    | a :: _ => .ok (.str (stdlibStringify st a), st)
  | "push" =>
    match args with
    | .arr r :: rest =>
      match st.arrays.get? r with
      | some contents =>
        .ok (.arr r, { st with arrays := st.arrays.set r (contents ++ [rest.headD .nil]) })
      | none => .ok (.arr r, st)
    | _ => .error "push: first argument must be an array"
  | "pop" =>
    match args with
    | .arr r :: _ =>
      match st.arrays.get? r with
      | some contents =>
        if contents.isEmpty then .error "pop: array is empty"
        else .ok ((contents.getLast?).getD .nil, { st with arrays := st.arrays.set r contents.dropLast })
      | none => .error "pop: array is empty"
    | _ => .error "pop: expected array"
  | _ => .error ("unknown builtin: " ++ name)

/-! ## Step metering (interpreter.ts 97-118) -/

def STEP_LIMIT : Nat := 10000000

def stepLimitMsg : String :=
  "Execution limit exceeded (10,000,000 steps). Possible infinite loop."

/-- `step()`: increment, and fail with the budget `RuntimeError` (file, line
0, column 0, current call-stack snapshot) as soon as the counter exceeds the
limit. -/
def stepCheck (file : String) (st : State) : Res Unit :=
  let st₁ : State := { st with steps := st.steps + 1 }
  if st₁.steps > STEP_LIMIT then
    .err (.runtime stepLimitMsg file 0 0 st₁.callStack) st₁
  else .ok () st₁

/-! ## Module path resolution (`ModuleLoader`, with node `path`)

`path.dirname`/`path.resolve` are host functions.  Modelled from the spec:
"The import argument is joined against the importing file's directory and
absolutised" — for the plain absolute paths the loader sees (no `..`
segments), `dirname` strips the last `/`-component and `resolve` either keeps
an absolute argument or joins it to the directory. -/

def dirnameAux : List Char → Option (List Char)
  | [] => none
  | c :: rest =>
    match dirnameAux rest with
    | some tail => some (c :: tail)
    | none => if c = '/' then some [] else none

def dirname (s : String) : String :=
  match dirnameAux s.data with
  | none => "."
  | some [] => "/"
  | some cs => ⟨cs⟩

def resolvePath (dir p : String) : String :=
  if p.data.headD ' ' = '/' then p else dir ++ "/" ++ p

/-- `resolved.endsWith(".lux")`, computed on the character list. -/
def endsWithLux (s : String) : Bool :=
  List.isSuffixOf ".lux".data s.data

/-- The resolution prefix of `importModule` (part_002 70-76): join against the
importing file's directory, then auto-append `.lux` if absent. -/
def resolveImport (importPath fromFile : String) : String :=
  let dir := dirname fromFile
  let resolved0 := resolvePath dir importPath
  if endsWithLux resolved0 then resolved0 else resolved0 ++ ".lux"

/-! ## Export merging (`ModuleLoader.mergeExports`, part_002 128-148) -/

/-- `val && typeof val === "object" && "__type" in val`: true exactly for
user functions and built-ins. -/
def isFuncOrBuiltin : LuxValue → Bool
  | .funcRef _ => true
  | .builtin _ => true
  | _ => false

/-- One loop iteration of `mergeExports`: functions and built-ins are
propagated with their constness, constant data with `constant := true`,
non-constant data not at all; an existing global binding is never
overwritten. -/
def mergeOne (moduleEnv : Nat) (st : State) (name : String) : State :=
  match getOwnEntry st moduleEnv name with
  | none => st
  | some (val, c) =>
    if isFuncOrBuiltin val then
      if envHas st st.globalRef name then st else envDefine st st.globalRef name val c
    else if c then
      if envHas st st.globalRef name then st else envDefine st st.globalRef name val true
    else st

def mergeExports (st : State) (moduleEnv : Nat) : State :=
  (getOwnNames st moduleEnv).foldl (mergeOne moduleEnv) st

/-- Instrumentation: count one `interpret` invocation for a module path. -/
def bumpCount : List (String × Nat) → String → List (String × Nat)
  | [], p => [(p, 1)]
  | (q, n) :: rest, p => if q = p then (q, n+1) :: rest else (q, n) :: bumpCount rest p

/-- Positional parameter binding (interpreter.ts 343-345): missing arguments
default to `null`, excess arguments are dropped. -/
def bindParams : State → Nat → List (String × Option String) → List LuxValue → State
  | st, _, [], _ => st
  | st, env, (p, _) :: ps, args =>
    bindParams (envDefine st env p (args.headD .nil) false) env ps args.tail

/-- The loader configuration: the parsed sources reachable by resolved path
(standing in for the file system plus the `Lexer`/`Parser` pipeline, whose
sources are not part of the repository snapshot), and whether an import
callback was installed (`options.onImport`). -/
structure Cfg where
  fsys : List (String × Program)
  useLoader : Bool

/-! ## The evaluator (interpreter.ts 133-372) and loader (`importModule`)

One mutual recursion, structurally decreasing on the fuel; every branch is a
direct transcription of the corresponding source switch case. -/

mutual

/-- `executeBlock` (interpreter.ts 133-140). -/
def executeBlock (cfg : Cfg) (file : String) :
    Nat → List Statement → Nat → State → Res Ctl
  | 0, _, _, _ => .timeout
  | fuel+1, stmts, env, st =>
    match stmts with
    | [] => .ok .normal st
    | stmt :: rest =>
      match executeStatement cfg file fuel stmt env st with
      | .ok .normal st₁ => executeBlock cfg file fuel rest env st₁
      | .ok c st₁ => .ok c st₁
      | .err e st₁ => .err e st₁
      | .timeout => .timeout
termination_by structural fuel _ _ _ => fuel

/-- `executeStatement` (interpreter.ts 142-270). -/
def executeStatement (cfg : Cfg) (file : String) :
    Nat → Statement → Nat → State → Res Ctl
  | 0, _, _, _ => .timeout
  | fuel+1, stmt, env, st =>
    match stepCheck file st with
    | .err e s => .err e s
    | .timeout => .timeout
    | .ok _ st₂ =>
      match stmt with
      | .letDecl name _ value _ _ =>
        match value with
        | none => .ok .normal (envDefine st₂ env name .nil false)
        | some e =>
          match evaluateExpression cfg file fuel e env st₂ with
          | .ok v st₃ => .ok .normal (envDefine st₃ env name v false)
          | .err er s => .err er s
          | .timeout => .timeout
      | .constDecl name _ e _ _ =>
        match evaluateExpression cfg file fuel e env st₂ with
        | .ok v st₃ => .ok .normal (envDefine st₃ env name v true)
        | .err er s => .err er s
        | .timeout => .timeout
      | .assign name e line col =>
        match evaluateExpression cfg file fuel e env st₂ with
        | .ok v st₃ =>
          match envSet st₃ env name v with
          | .ok st₄ => .ok .normal st₄
          | .error msg => .err (.runtime msg file line col st₃.callStack) st₃
        | .err er s => .err er s
        | .timeout => .timeout
      | .indexAssign name idxE valE line col =>
        match envGet st₂ env name with
        | none => .err (.plain ("Undefined variable: '" ++ name ++ "'")) st₂
        | some av =>
          match av with
          | .arr r =>
            match evaluateExpression cfg file fuel idxE env st₂ with
            | .ok iv st₃ =>
              match iv with
              | .num n =>
                let idx := Rat.floor n
                let len := ((st₃.arrays.get? r).getD []).length
                if idx < 0 ∨ ((len : ℤ) ≤ idx) then
                  .err (.runtime ("Index " ++ toString idx ++ " out of bounds (length " ++ toString len ++ ")")
                    file line col st₃.callStack) st₃
                else
                  match evaluateExpression cfg file fuel valE env st₃ with
                  | .ok v st₄ =>
                    let contents := (st₄.arrays.get? r).getD []
                    .ok .normal { st₄ with arrays := st₄.arrays.set r (contents.set idx.toNat v) }
                  | .err er s => .err er s
                  | .timeout => .timeout
              | _ => .err (.runtime "Array index must be a number" file line col st₃.callStack) st₃
            | .err er s => .err er s
            | .timeout => .timeout
          | _ => .err (.runtime ("'" ++ name ++ "' is not an array") file line col st₂.callStack) st₂
      | .exprStmt e _ _ =>
        match evaluateExpression cfg file fuel e env st₂ with
        | .ok _ st₃ => .ok .normal st₃
        | .err er s => .err er s
        | .timeout => .timeout
      | .funcDecl name params returnType body _ _ =>
        let p := allocClosure st₂ ⟨name, params, returnType, body, env⟩
        .ok .normal (envDefine p.1 env name (.funcRef p.2) true)
      | .returnStmt value _ _ =>
        match value with
        | none => .ok (.ret .nil) st₂
        | some e =>
          match evaluateExpression cfg file fuel e env st₂ with
          | .ok v st₃ => .ok (.ret v) st₃
          | .err er s => .err er s
          | .timeout => .timeout
      | .breakStmt _ _ => .ok .brk st₂
      | .continueStmt _ _ => .ok .cont st₂
      | .ifStmt cond cons alts alt _ _ =>
        match evaluateExpression cfg file fuel cond env st₂ with
        | .ok c st₃ =>
          if isTruthy c then
            let p := allocEnv st₃ (some env)
            executeBlock cfg file fuel cons p.2 p.1
          else executeIfAlts cfg file fuel alts alt env st₃
        | .err er s => .err er s
        | .timeout => .timeout
      | .whileStmt cond body _ _ => whileLoop cfg file fuel cond body env st₂
      | .forStmt v iterable body line col =>
        match evaluateExpression cfg file fuel iterable env st₂ with
        | .ok it st₃ =>
          match it with
          | .arr r => forLoop cfg file fuel v r 0 body env st₃
          | _ => .err (.runtime "for..in requires an array" file line col st₃.callStack) st₃
        | .err er s => .err er s
        | .timeout => .timeout
      | .importStmt path _ _ =>
        if cfg.useLoader then
          match importModule cfg fuel path file st₂ with
          | .ok _ st₃ => .ok .normal st₃
          | .err er s => .err er s
          | .timeout => .timeout
        else .ok .normal st₂
      | .tryCatch tb v cb _ _ =>
        let p := allocEnv st₂ (some env)
        match executeBlock cfg file fuel tb p.2 p.1 with
        | .ok c st₄ => .ok c st₄
        | .err e st₄ =>
          let q := allocEnv st₄ (some env)
          let st₆ := envDefine q.1 q.2 v (.str e.message) false
          match executeBlock cfg file fuel cb q.2 st₆ with
          | .ok c st₇ => .ok c st₇
          | .err e₂ s => .err e₂ s
          | .timeout => .timeout
        | .timeout => .timeout
termination_by structural fuel _ _ _ => fuel

/-- The `else if`/`else` cascade of `IfStatement` (interpreter.ts 209-218). -/
def executeIfAlts (cfg : Cfg) (file : String) :
    Nat → List (Expression × List Statement) → Option (List Statement) → Nat → State → Res Ctl
  | 0, _, _, _, _ => .timeout
  | fuel+1, [], alt, env, st =>
    match alt with
    | some b =>
      let p := allocEnv st (some env)
      executeBlock cfg file fuel b p.2 p.1
    | none => .ok .normal st
  | fuel+1, (c, b) :: rest, alt, env, st =>
    match evaluateExpression cfg file fuel c env st with
    | .ok v st₁ =>
      if isTruthy v then
        let p := allocEnv st₁ (some env)
        executeBlock cfg file fuel b p.2 p.1
      else executeIfAlts cfg file fuel rest alt env st₁
    | .err er s => .err er s
    | .timeout => .timeout
termination_by structural fuel _ _ _ _ => fuel

/-- The `while` loop (interpreter.ts 220-229): guard re-evaluated before each
iteration, one `step()` per iteration, fresh child environment, `break`
absorbed, `continue` ignored, `return` propagated. -/
def whileLoop (cfg : Cfg) (file : String) :
    Nat → Expression → List Statement → Nat → State → Res Ctl
  | 0, _, _, _, _ => .timeout
  | fuel+1, cond, body, env, st =>
    match evaluateExpression cfg file fuel cond env st with
    | .ok c st₁ =>
      if isTruthy c then
        match stepCheck file st₁ with
        | .ok _ st₂ =>
          let p := allocEnv st₂ (some env)
          match executeBlock cfg file fuel body p.2 p.1 with
          | .ok (.ret v) st₄ => .ok (.ret v) st₄
          | .ok .brk st₄ => .ok .normal st₄
          | .ok .normal st₄ => whileLoop cfg file fuel cond body env st₄
          | .ok .cont st₄ => whileLoop cfg file fuel cond body env st₄
          | .err er s => .err er s
          | .timeout => .timeout
        | .err er s => .err er s
        | .timeout => .timeout
      else .ok .normal st₁
    | .err er s => .err er s
    | .timeout => .timeout
termination_by structural fuel _ _ _ _ => fuel

/-- The `for..in` loop (interpreter.ts 231-244): index-based live iteration
over the array object, one `step()` per iteration, fresh child environment
with the element bound, `break` absorbed, `return` propagated. -/
def forLoop (cfg : Cfg) (file : String) :
    Nat → String → Nat → Nat → List Statement → Nat → State → Res Ctl
  | 0, _, _, _, _, _, _ => .timeout
  | fuel+1, v, r, i, body, env, st =>
    let contents := (st.arrays.get? r).getD []
    if h : i < contents.length then
      match stepCheck file st with
      | .ok _ st₁ =>
        let p := allocEnv st₁ (some env)
        let st₃ := envDefine p.1 p.2 v (contents.get ⟨i, h⟩) false
        match executeBlock cfg file fuel body p.2 st₃ with
        | .ok (.ret w) st₄ => .ok (.ret w) st₄
        | .ok .brk st₄ => .ok .normal st₄
        | .ok .normal st₄ => forLoop cfg file fuel v r (i+1) body env st₄
        | .ok .cont st₄ => forLoop cfg file fuel v r (i+1) body env st₄
        | .err er s => .err er s
        | .timeout => .timeout
      | .err er s => .err er s
      | .timeout => .timeout
    else .ok .normal st
termination_by structural fuel _ _ _ _ _ _ => fuel

/-- `evaluateExpression` (interpreter.ts 272-372). -/
def evaluateExpression (cfg : Cfg) (file : String) :
    Nat → Expression → Nat → State → Res LuxValue
  | 0, _, _, _ => .timeout
  | fuel+1, expr, env, st =>
    match stepCheck file st with
    | .err e s => .err e s
    | .timeout => .timeout
    | .ok _ st₂ =>
      match expr with
      | .numberLit v _ => .ok (.num v) st₂
      | .stringLit s => .ok (.str s) st₂
      | .booleanLit b => .ok (.bool b) st₂
      | .nilLit => .ok .nil st₂
      | .ident name =>
        match envGet st₂ env name with
        | some v => .ok v st₂
        | none => .err (.runtime ("Undefined variable: '" ++ name ++ "'") file 0 0 st₂.callStack) st₂
      | .arrayLit elements =>
        match evalList cfg file fuel elements env st₂ with
        | .ok vs st₃ =>
          let p := allocArray st₃ vs
          .ok (.arr p.2) p.1
        | .err er s => .err er s
        | .timeout => .timeout
      | .unary op operand =>
        match evaluateExpression cfg file fuel operand env st₂ with
        | .ok v st₃ =>
          if op = "-" then
            match v with
            | .num n => .ok (.num (-n)) st₃
            | _ => .err (.runtime "Unary '-' requires a number" file 0 0 st₃.callStack) st₃
          else if op = "not" then .ok (.bool (!(isTruthy v))) st₃
          else .err (.runtime ("Unknown unary operator: " ++ op) file 0 0 st₃.callStack) st₃
        | .err er s => .err er s
        | .timeout => .timeout
      | .binary op l r =>
        if op = "and" then
          match evaluateExpression cfg file fuel l env st₂ with
          | .ok lv st₃ =>
            if isTruthy lv then evaluateExpression cfg file fuel r env st₃
            else .ok lv st₃
          | .err er s => .err er s
          | .timeout => .timeout
        else if op = "or" then
          match evaluateExpression cfg file fuel l env st₂ with
          | .ok lv st₃ =>
            if isTruthy lv then .ok lv st₃
            else evaluateExpression cfg file fuel r env st₃
          | .err er s => .err er s
          | .timeout => .timeout
        else
          match evaluateExpression cfg file fuel l env st₂ with
          | .ok lv st₃ =>
            match evaluateExpression cfg file fuel r env st₃ with
            | .ok rv st₄ =>
              match evaluateBinaryOp file st₄ op lv rv with
              | .ok v => .ok v st₄
              | .error e => .err e st₄
            | .err er s => .err er s
            | .timeout => .timeout
          | .err er s => .err er s
          | .timeout => .timeout
      | .call callee args line col =>
        match envGet st₂ env callee with
        | none => .err (.runtime ("Undefined function: '" ++ callee ++ "'") file line col st₂.callStack) st₂
        | some calleeV =>
          match evalList cfg file fuel args env st₂ with
          | .ok argv st₃ =>
            match calleeV with
            | .builtin bname =>
              match applyBuiltin st₃ bname argv with
              | .ok (v, st₄) => .ok v st₄
              | .error msg => .err (.runtime msg file line col st₃.callStack) st₃
            | .funcRef r =>
              match st₃.closures.get? r with
              | none => .err (.plain "dangling closure reference") st₃
              | some cl =>
                let st₄ := { st₃ with callStack := st₃.callStack ++ [⟨cl.name, file, line, col⟩] }
                let p := allocEnv st₄ (some cl.closure)
                let st₆ := bindParams p.1 p.2 cl.params argv
                match executeBlock cfg file fuel cl.body p.2 st₆ with
                | .ok c st₇ =>
                  -- `callStack.pop()` happens only on the normal path; a
                  -- throw inside the body skips it (interpreter.ts 346-349)
                  let st₈ := { st₇ with callStack := st₇.callStack.dropLast }
                  match c with
                  | .ret v => .ok v st₈
                  | _ => .ok .nil st₈
                | .err er s => .err er s
                | .timeout => .timeout
            | _ => .err (.runtime ("'" ++ callee ++ "' is not a function") file line col st₃.callStack) st₃
          | .err er s => .err er s
          | .timeout => .timeout
      | .indexE objE idxE =>
        match evaluateExpression cfg file fuel objE env st₂ with
        | .ok o st₃ =>
          match evaluateExpression cfg file fuel idxE env st₃ with
          | .ok iv st₄ =>
            match indexRead file st₄ o iv with
            | .ok v => .ok v st₄
            | .error e => .err e st₄
          | .err er s => .err er s
          | .timeout => .timeout
        | .err er s => .err er s
        | .timeout => .timeout
termination_by structural fuel _ _ _ => fuel

/-- Left-to-right evaluation of an expression list (array literals, call
arguments). -/
def evalList (cfg : Cfg) (file : String) :
    Nat → List Expression → Nat → State → Res (List LuxValue)
  | 0, _, _, _ => .timeout
  | _+1, [], _, st => .ok [] st
  | fuel+1, e :: rest, env, st =>
    match evaluateExpression cfg file fuel e env st with
    | .ok v st₁ =>
      match evalList cfg file fuel rest env st₁ with
      | .ok vs st₂ => .ok (v :: vs) st₂
      | .err er s => .err er s
      | .timeout => .timeout
    | .err er s => .err er s
    | .timeout => .timeout
termination_by structural fuel _ _ _ => fuel

/-- `ModuleLoader.importModule` (part_002 69-126): resolve, guard against
reentry, serve from cache, otherwise execute the module's program in a child
environment of the loader's global environment under a fresh `interpret`
invocation (fresh `steps`/`callStack`), cache and merge on success, wrap the
module's error string on failure; the loading mark is dropped on both exits
(the `finally`). -/
def importModule (cfg : Cfg) :
    Nat → String → String → State → Res Unit
  | 0, _, _, _ => .timeout
  | fuel+1, importPath, fromFile, st =>
    let resolved := resolveImport importPath fromFile
    if resolved ∈ st.loading then
      .err (.plain ("Circular import detected: " ++ resolved)) st
    else
      match lookupName st.cache resolved with
      | some envRef => .ok () (mergeExports st envRef)
      | none =>
        match lookupName cfg.fsys resolved with
        | none => .err (.plain ("Module not found: " ++ resolved)) st
        | some program =>
          let st₁ := { st with loading := resolved :: st.loading }
          let p := allocEnv st₁ (some st₁.globalRef)
          let savedSteps := p.1.steps
          let savedStack := p.1.callStack
          let st₃ := { p.1 with steps := 0, callStack := [], execCount := bumpCount p.1.execCount resolved }
          match executeBlock cfg resolved fuel program.body p.2 st₃ with
          | .ok _ st₄ =>
            let st₅ := { st₄ with steps := savedSteps, callStack := savedStack }
            let st₆ := { st₅ with cache := (resolved, p.2) :: st₅.cache }
            let st₇ := mergeExports st₆ p.2
            .ok () { st₇ with loading := st₇.loading.erase resolved }
          | .err e st₄ =>
            let st₅ := { st₄ with steps := savedSteps, callStack := savedStack }
            .err (.plain ("Error in module " ++ resolved ++ ": " ++ formatError e))
              { st₅ with loading := st₅.loading.erase resolved }
          | .timeout => .timeout
termination_by structural fuel _ _ _ => fuel

end

/-! ## Top-level entry points -/

/-- The record `interpret` returns (interpreter.ts 99-104). -/
structure InterpResult where
  output : List String
  steps : Nat
  error : Option String
  envRef : Nat
  state : State

def initState : State :=
  { envs := [], arrays := [], closures := [], steps := 0, callStack := [],
    output := [], cache := [], loading := [], globalRef := 0, execCount := [] }

/-- Registering the stdlib in a global environment, each entry a constant
(interpreter.ts 122-131 and the loader constructor). -/
def installBuiltins (st : State) (e : Nat) : State :=
  builtinNames.foldl (fun s n => envDefine s e n (.builtin n) true) st

/-- `interpret` without a host-supplied environment or import callback: fresh
global environment with the built-ins, then `executeBlock` over the program
body; a caught error surfaces as a formatted string.  `none` means the
structural fuel ran out. -/
def interpret (fuel : Nat) (program : Program) (file : String) :
    Option InterpResult :=
  let p := allocEnv initState none
  let st0 := { installBuiltins p.1 p.2 with globalRef := p.2 }
  match executeBlock ⟨[], false⟩ file fuel program.body p.2 st0 with
  | .ok _ st₁ => some ⟨st₁.output, st₁.steps, none, p.2, st₁⟩
  | .err e st₁ => some ⟨st₁.output, st₁.steps, some (formatError e), p.2, st₁⟩
  | .timeout => none

structure RunResult where
  output : List String
  error : Option String
  state : State

/-- `ModuleLoader.runFile` (part_002 42-67) for an absolute main path: the
loader's constructor builds the global environment with the built-ins; the
main program runs against it with the import callback installed. -/
def ModuleLoader.runFile (fuel : Nat) (fsys : List (String × Program))
    (filePath : String) : Option RunResult :=
  let p := allocEnv initState none
  let st0 := { installBuiltins p.1 p.2 with globalRef := p.2 }
  match lookupName fsys filePath with
  | none => some ⟨st0.output, some ("Cannot read file: " ++ filePath), st0⟩
  | some program =>
    match executeBlock ⟨fsys, true⟩ filePath fuel program.body p.2 st0 with
    | .ok _ st₁ => some ⟨st₁.output, none, st₁⟩
    | .err e st₁ => some ⟨st₁.output, some (formatError e), st₁⟩
    | .timeout => none

/-! ## Run scaffolding

`ST0` is the initial state both entry points construct: one global
environment frame holding the built-ins as constants.  The `interpret_run` /
`runFile_run` lemmas expose the run as an `executeBlock` call from `ST0`, and
the `executeBlock_*` lemmas let a run be composed statement by statement. -/

def ST0 : State :=
  { envs := [⟨[("print", .builtin "print", true), ("println", .builtin "println", true),
              ("to_string", .builtin "to_string", true), ("push", .builtin "push", true),
              ("pop", .builtin "pop", true)], none⟩],
    arrays := [], closures := [], steps := 0, callStack := [], output := [],
    cache := [], loading := [], globalRef := 0, execCount := [] }

theorem interpret_run (fuel : Nat) (prog : Program) (file : String) :
    interpret fuel prog file =
      match executeBlock ⟨[], false⟩ file fuel prog.body 0 ST0 with
      | .ok _ st₁ => some ⟨st₁.output, st₁.steps, none, 0, st₁⟩
      | .err e st₁ => some ⟨st₁.output, st₁.steps, some (formatError e), 0, st₁⟩
      | .timeout => none := rfl

theorem runFile_run (fuel : Nat) (fsys : List (String × Program))
    (filePath : String) (prog : Program) (h : lookupName fsys filePath = some prog) :
    ModuleLoader.runFile fuel fsys filePath =
      match executeBlock ⟨fsys, true⟩ filePath fuel prog.body 0 ST0 with
      | .ok _ st₁ => some ⟨st₁.output, none, st₁⟩
      | .err e st₁ => some ⟨st₁.output, some (formatError e), st₁⟩
      | .timeout => none := by
  unfold ModuleLoader.runFile
  rw [h]
  rfl

theorem executeBlock_nil (cfg : Cfg) (file : String) (fuel : Nat) (env : Nat)
    (st : State) :
    executeBlock cfg file (fuel+1) [] env st = .ok .normal st := by
  simp [executeBlock]

theorem executeBlock_cons_ok (cfg : Cfg) (file : String) (fuel : Nat)
    (s : Statement) (rest : List Statement) (env : Nat) (st st' : State)
    (h : executeStatement cfg file fuel s env st = .ok .normal st') :
    executeBlock cfg file (fuel+1) (s :: rest) env st =
      executeBlock cfg file fuel rest env st' := by
  simp [executeBlock, h]

theorem executeBlock_cons_err (cfg : Cfg) (file : String) (fuel : Nat)
    (s : Statement) (rest : List Statement) (env : Nat) (st st' : State)
    (e : LuxErr) (h : executeStatement cfg file fuel s env st = .err e st') :
    executeBlock cfg file (fuel+1) (s :: rest) env st = .err e st' := by
  simp [executeBlock, h]

/-- Point-free projections used by the concrete run theorems. -/
def bindingOf (name : String) : InterpResult → Option (LuxValue × Bool) :=
  fun r => getOwnEntry r.state r.envRef name

def callStackOf : InterpResult → List StackFrame := fun r => r.state.callStack

def loadingOf : RunResult → List String := fun r => r.state.loading

def execCountOf (p : String) : RunResult → Option Nat :=
  fun r => lookupName r.state.execCount p

def globalBindingOf (name : String) : RunResult → Option (LuxValue × Bool) :=
  fun r => getOwnEntry r.state r.state.globalRef name

/-! ## C1 — constant bindings

`Environment.set` does reject constants, but `Environment.define` is an
unconditional `Map.set` with no constness check, and `let`/`const`/`func`
declarations always call `define`.  A later declaration of the same name in
the same scope therefore replaces a constant binding, so "no operation
sequence can make the observed value differ" is false. -/

/-- `const X = 1` then `let X = 2` (two declarations in the same scope). -/
def c1redefine : Program :=
  ⟨[.constDecl "X" none (.numberLit 1 false) 1 1,
    .letDecl "X" none (some (.numberLit 2 false)) 2 1]⟩

/-- `const X = 1` then `X = 2` (an assignment statement). -/
def c1assign : Program :=
  ⟨[.constDecl "X" none (.numberLit 1 false) 1 1,
    .assign "X" (.numberLit 2 false) 2 1]⟩

/-- C1 counterexample: after `const X = 1` (line 1), the declaration
`let X = 2` (line 2) in the same scope succeeds — no error — and the binding
observed for `X` afterwards is `2`, non-constant, although `X` was created
constant with value `1`.  This refutes "no operation sequence (including a
later let, const, or func declaration of the same name in the same scope)
can make the value observed for that binding differ". -/
theorem C1_counterexample :
    (interpret 10 c1redefine "<stdin>").map InterpResult.error = some none ∧
    (interpret 10 c1redefine "<stdin>").map (bindingOf "X") =
      some (some (.num 2, false)) := by
  constructor <;> rfl

/-- `Map.set` makes the key's entry the written pair. -/
theorem lookupName_varsSet (vars : List (String × LuxValue × Bool))
    (name : String) (w : LuxValue) (c : Bool) :
    lookupName (varsSet vars name w c) name = some (w, c) := by
  induction vars with
  | nil => simp [varsSet, lookupName]
  | cons p rest ih =>
    rcases p with ⟨k, v, b⟩
    by_cases hk : k = name
    · simp [varsSet, lookupName, hk]
    · simp [varsSet, lookupName, hk, ih]

/-- A single-frame state with `X` bound as a constant to `1`. -/
def c1state : State :=
  { envs := [⟨[("X", .num 1, true)], none⟩], arrays := [], closures := [],
    steps := 0, callStack := [], output := [], cache := [], loading := [],
    globalRef := 0, execCount := [] }

/-- C1 amended: an assignment statement to a constant fails with
`Cannot reassign constant` and leaves the binding unchanged; but
`Environment.define` — which `let`, `const` and `func` declarations use —
overwrites any binding, constant or not, so a later declaration of the same
name in the same scope does change the observed value. -/
theorem C1_const_bindings_amended :
    (∀ (st : State) (e : Nat) (name : String) (v w : LuxValue),
        getOwnEntry st e name = some (v, true) →
        envSet st e name w = .error ("Cannot reassign constant: '" ++ name ++ "'")) ∧
    (∀ (st : State) (e : Nat) (ed : EnvData) (name : String) (w : LuxValue) (c : Bool),
        st.envs.get? e = some ed →
        getOwnEntry (envDefine st e name w c) e name = some (w, c)) ∧
    (interpret 10 c1assign "<stdin>").map InterpResult.error =
      some (some "RuntimeError: Cannot reassign constant: 'X'\n  at <stdin>:2:1") ∧
    (interpret 10 c1assign "<stdin>").map (bindingOf "X") =
      some (some (.num 1, true)) := by
  refine ⟨?_, ?_, by rfl, by rfl⟩
  · intro st e name v w h
    unfold getOwnEntry at h
    cases hg : st.envs.get? e with
    | none => rw [hg] at h; simp at h
    | some ed =>
      rw [hg] at h
      simp only at h
      rw [List.get?_eq_getElem?] at hg
      simp [envSet, envSetAux, hg, h]
  · intro st e ed name w c h
    have h' : st.envs[e]? = some ed := by rw [← List.get?_eq_getElem?]; exact h
    unfold envDefine getOwnEntry
    rw [h, List.get?_eq_getElem?, List.getElem?_set_self', h']
    simp [lookupName_varsSet]

/-- Witness for the amended C1 theorem at concrete inputs. -/
theorem C1_witness :
    envSet c1state 0 "X" (.num 5) = .error "Cannot reassign constant: 'X'" ∧
    getOwnEntry (envDefine c1state 0 "X" (.num 5) false) 0 "X" =
      some (.num 5, false) :=
  ⟨C1_const_bindings_amended.1 c1state 0 "X" (.num 1) (.num 5) rfl,
   C1_const_bindings_amended.2.1 c1state 0 ⟨[("X", .num 1, true)], none⟩ "X" (.num 5) false rfl⟩

/-! ## C2 — array index truncation

The source truncates indices with `Math.floor`, i.e. toward negative
infinity, not toward zero: for a fractional index strictly between `-1` and
`0`, `Math.floor` yields `-1`, which fails the bounds check even on a
non-empty array. -/

/-- `let a = [7]` then `let x = a[-0.5]` — the claim predicts `x = 7`. -/
def c2read : Program :=
  ⟨[.letDecl "a" none (some (.arrayLit [.numberLit 7 false])) 1 1,
    .letDecl "x" none (some (.indexE (.ident "a") (.unary "-" (.numberLit (mkRat 1 2) true)))) 2 1]⟩

/-- `let a = [7]` then `a[-0.5] = 1`. -/
def c2write : Program :=
  ⟨[.letDecl "a" none (some (.arrayLit [.numberLit 7 false])) 1 1,
    .indexAssign "a" (.unary "-" (.numberLit (mkRat 1 2) true)) (.numberLit 1 false) 2 1]⟩

/-- C2 counterexample: reading `a[-0.5]` on the one-element array `[7]`
fails with `Index -1 out of bounds (length 1)` — the index was floored to
`-1`, not truncated toward zero to `0` — whereas the claim says this read is
in bounds and yields the element at position `0`. -/
theorem C2_counterexample :
    (interpret 10 c2read "<stdin>").map InterpResult.error =
      some (some "RuntimeError: Index -1 out of bounds (length 1)") ∧
    (interpret 10 c2read "<stdin>").map (bindingOf "x") = some none := by
  constructor <;> rfl

theorem ratFloor_eq_intFloor (q : ℚ) : Rat.floor q = ⌊q⌋ := rfl

/-- C2 amended: the index is truncated with `Math.floor` (toward negative
infinity); after flooring, an index that is negative or not strictly less
than the length fails with the out-of-bounds error and an in-range floored
index reads the element at that position; in particular a fractional index
strictly between `-1` and `0` floors to `-1` and is out of bounds even for a
non-empty array (both on reads and on index assignments). -/
theorem C2_index_floor_amended :
    (∀ q : ℚ, -1 < q → q < 0 → Rat.floor q = -1) ∧
    (∀ (file : String) (st : State) (r : Nat) (contents : List LuxValue) (q : ℚ),
        st.arrays.get? r = some contents →
        indexRead file st (.arr r) (.num q) =
          if 0 ≤ Rat.floor q ∧ Rat.floor q < (contents.length : ℤ) then
            .ok (contents.getD (Rat.floor q).toNat .nil)
          else
            .error (.runtime ("Index " ++ toString (Rat.floor q) ++
              " out of bounds (length " ++ toString contents.length ++ ")") file 0 0 st.callStack)) ∧
    (interpret 10 c2write "<stdin>").map InterpResult.error =
      some (some "RuntimeError: Index -1 out of bounds (length 1)\n  at <stdin>:2:1") := by
  refine ⟨?_, ?_, by rfl⟩
  · intro q h1 h0
    rw [ratFloor_eq_intFloor]
    rw [Int.floor_eq_iff]
    constructor
    · push_cast
      exact le_of_lt h1
    · push_cast
      linarith
  · intro file st r contents q h
    simp only [indexRead, h, Option.getD_some]
    by_cases hle : 0 ≤ Rat.floor q ∧ Rat.floor q < (contents.length : ℤ)
    · rw [if_pos hle, if_neg (by omega)]
    · rw [if_neg hle, if_pos (by omega)]

/-! ## C4 — short-circuit `and`/`or`

Transcribed at interpreter.ts 304-315: for `and`, a falsy left operand is
itself the result and the right operand is never evaluated, otherwise the
result is the right operand's evaluation; symmetrically for `or`. -/

/-- `let x = 0 and println("x")`. -/
def c4and : Program :=
  ⟨[.letDecl "x" none (some (.binary "and" (.numberLit 0 false)
      (.call "println" [.stringLit "x"] 1 15))) 1 1]⟩

/-- `let x = 7 or println("x")`. -/
def c4orShort : Program :=
  ⟨[.letDecl "x" none (some (.binary "or" (.numberLit 7 false)
      (.call "println" [.stringLit "x"] 1 14))) 1 1]⟩

/-- `let x = 0 or println("x")`. -/
def c4orLong : Program :=
  ⟨[.letDecl "x" none (some (.binary "or" (.numberLit 0 false)
      (.call "println" [.stringLit "x"] 1 14))) 1 1]⟩

/-- C4: the left operand is evaluated first; when its truthiness decides the
result (falsy for `and`, truthy for `or`) the left value itself is the
result and the right operand is not evaluated (the overall result carries the
state exactly as it was after the left operand); otherwise the result is the
right operand's evaluation from that state.  The closed conjuncts run the
side-effect observable through the `println` built-in: the short-circuiting
runs leave the output buffer empty and return the left value itself, the
non-short-circuiting `or` prints and returns the right value. -/
theorem C4_short_circuit :
    (∀ (cfg : Cfg) (file : String) (fuel : Nat) (l r : Expression) (env : Nat)
        (st st₁ : State) (lv : LuxValue),
        st.steps < STEP_LIMIT →
        evaluateExpression cfg file fuel l env { st with steps := st.steps + 1 } = .ok lv st₁ →
        ((isTruthy lv = false →
            evaluateExpression cfg file (fuel+1) (.binary "and" l r) env st = .ok lv st₁ ∧
            evaluateExpression cfg file (fuel+1) (.binary "or" l r) env st =
              evaluateExpression cfg file fuel r env st₁) ∧
         (isTruthy lv = true →
            evaluateExpression cfg file (fuel+1) (.binary "or" l r) env st = .ok lv st₁ ∧
            evaluateExpression cfg file (fuel+1) (.binary "and" l r) env st =
              evaluateExpression cfg file fuel r env st₁))) ∧
    (interpret 10 c4and "<stdin>").map InterpResult.output = some [] ∧
    (interpret 10 c4and "<stdin>").map (bindingOf "x") = some (some (.num 0, false)) ∧
    (interpret 10 c4orShort "<stdin>").map InterpResult.output = some [] ∧
    (interpret 10 c4orShort "<stdin>").map (bindingOf "x") = some (some (.num 7, false)) ∧
    (interpret 10 c4orLong "<stdin>").map InterpResult.output = some ["x"] ∧
    (interpret 10 c4orLong "<stdin>").map (bindingOf "x") = some (some (.nil, false)) := by
  refine ⟨?_, by rfl, by rfl, by rfl, by rfl, by rfl, by rfl⟩
  intro cfg file fuel l r env st st₁ lv hstep hleft
  have hand : evaluateExpression cfg file (fuel+1) (.binary "and" l r) env st =
      (if isTruthy lv then evaluateExpression cfg file fuel r env st₁ else .ok lv st₁) := by
    rw [evaluateExpression]
    dsimp only [stepCheck]
    rw [if_neg (show ¬(st.steps + 1 > STEP_LIMIT) by omega)]
    simp only [reduceIte, hleft]
  have hor : evaluateExpression cfg file (fuel+1) (.binary "or" l r) env st =
      (if isTruthy lv then .ok lv st₁ else evaluateExpression cfg file fuel r env st₁) := by
    rw [evaluateExpression]
    dsimp only [stepCheck]
    rw [if_neg (show ¬(st.steps + 1 > STEP_LIMIT) by omega)]
    simp only [reduceIte, hleft]
    rw [if_neg (show ("or" : String) ≠ "and" by decide)]
  constructor
  · intro hf
    rw [hand, hor, hf]
    simp
  · intro ht
    rw [hand, hor, ht]
    simp

/-- Witness for C4 at concrete inputs: from the fresh global state, the left
operand `0` is falsy, so `0 and println("x")` returns `0` without evaluating
the call, and `0 or println("x")` continues with the right operand. -/
theorem C4_witness :
    evaluateExpression ⟨[], false⟩ "<stdin>" 9
        (.binary "and" (.numberLit 0 false) (.call "println" [.stringLit "x"] 1 15)) 0 ST0 =
      .ok (.num 0) { ST0 with steps := 2 } ∧
    evaluateExpression ⟨[], false⟩ "<stdin>" 9
        (.binary "or" (.numberLit 0 false) (.call "println" [.stringLit "x"] 1 15)) 0 ST0 =
      evaluateExpression ⟨[], false⟩ "<stdin>" 8
        (.call "println" [.stringLit "x"] 1 15) 0 { ST0 with steps := 2 } := by
  have h := (C4_short_circuit.1 ⟨[], false⟩ "<stdin>" 8 (.numberLit 0 false)
    (.call "println" [.stringLit "x"] 1 15) 0 ST0 { ST0 with steps := 2 } (.num 0)
    (by decide) (by rfl)).1 (by decide)
  exact ⟨h.1, h.2⟩

/-! ## C3 — try/catch

interpreter.ts 252-268: control-flow signals are *returned*, not thrown, so
the host `try` around the try body only intercepts errors; a caught error's
undecorated message is bound to the catch variable in a fresh child
environment and the catch body's outcome is the statement's outcome. -/

/-- C3: executing `try tb catch cv cb end`: if the try body completes with a
control-flow outcome `c` (a return/break/continue signal — or normal
completion) that outcome propagates unchanged and the catch body is not
executed; if the try body raises an error `e`, the statement's result is
exactly the catch body's execution in a fresh child environment of the
enclosing one in which `cv` is bound (non-constant) to `e`'s undecorated
message string — in particular the error itself propagates no further. -/
theorem C3_try_catch :
    ∀ (cfg : Cfg) (file : String) (fuel : Nat) (tb : List Statement) (cv : String)
      (cb : List Statement) (line col env : Nat) (st : State),
      st.steps < STEP_LIMIT →
      ((∀ (c : Ctl) (st' : State),
          executeBlock cfg file fuel tb (allocEnv { st with steps := st.steps + 1 } (some env)).2
              (allocEnv { st with steps := st.steps + 1 } (some env)).1 = .ok c st' →
          executeStatement cfg file (fuel+1) (.tryCatch tb cv cb line col) env st = .ok c st') ∧
       (∀ (e : LuxErr) (st' : State),
          executeBlock cfg file fuel tb (allocEnv { st with steps := st.steps + 1 } (some env)).2
              (allocEnv { st with steps := st.steps + 1 } (some env)).1 = .err e st' →
          executeStatement cfg file (fuel+1) (.tryCatch tb cv cb line col) env st =
            executeBlock cfg file fuel cb (allocEnv st' (some env)).2
              (envDefine (allocEnv st' (some env)).1 (allocEnv st' (some env)).2 cv
                (.str e.message) false))) := by
  intro cfg file fuel tb cv cb line col env st hstep
  constructor
  · intro c st' htry
    rw [executeStatement]
    dsimp only [stepCheck]
    rw [if_neg (show ¬(st.steps + 1 > STEP_LIMIT) by omega)]
    dsimp only
    rw [htry]
  · intro e st' htry
    rw [executeStatement]
    dsimp only [stepCheck]
    rw [if_neg (show ¬(st.steps + 1 > STEP_LIMIT) by omega)]
    dsimp only
    rw [htry]
    dsimp only
    cases hcb : executeBlock cfg file fuel cb (allocEnv st' (some env)).2
        (envDefine (allocEnv st' (some env)).1 (allocEnv st' (some env)).2 cv
          (.str e.message) false) <;> rfl

/-- The state after the erroring try body of the C3 witness: one fresh try
environment was allocated and two statement/expression steps ran. -/
def c3errState : State :=
  { envs := [⟨[("print", .builtin "print", true), ("println", .builtin "println", true),
              ("to_string", .builtin "to_string", true), ("push", .builtin "push", true),
              ("pop", .builtin "pop", true)], none⟩, ⟨[], some 0⟩],
    arrays := [], closures := [], steps := 3, callStack := [], output := [],
    cache := [], loading := [], globalRef := 0, execCount := [] }

/-- Witness for C3 at concrete inputs: a `break` signal inside the try body
propagates out unchanged with the catch body unexecuted, and an undefined
variable error in the try body turns the statement into the catch body's run
with `e` bound to the message `Undefined variable: 'boom'`. -/
theorem C3_witness :
    executeStatement ⟨[], false⟩ "<stdin>" 9
        (.tryCatch [.breakStmt 2 3] "e" [.exprStmt (.ident "e") 4 3] 1 1) 0 ST0 =
      .ok .brk { c3errState with steps := 2 } ∧
    executeStatement ⟨[], false⟩ "<stdin>" 9
        (.tryCatch [.exprStmt (.ident "boom") 2 3] "e" [.exprStmt (.ident "e") 4 3] 1 1) 0 ST0 =
      executeBlock ⟨[], false⟩ "<stdin>" 8 [.exprStmt (.ident "e") 4 3]
        (allocEnv c3errState (some 0)).2
        (envDefine (allocEnv c3errState (some 0)).1 (allocEnv c3errState (some 0)).2 "e"
          (.str "Undefined variable: 'boom'") false) :=
  ⟨(C3_try_catch ⟨[], false⟩ "<stdin>" 8 [.breakStmt 2 3] "e" [.exprStmt (.ident "e") 4 3]
      1 1 0 ST0 (by decide)).1 .brk { c3errState with steps := 2 } (by rfl),
   (C3_try_catch ⟨[], false⟩ "<stdin>" 8 [.exprStmt (.ident "boom") 2 3] "e"
      [.exprStmt (.ident "e") 4 3] 1 1 0 ST0 (by decide)).2
     (.runtime "Undefined variable: 'boom'" "<stdin>" 0 0 []) c3errState (by rfl)⟩

/-! ## C6 — node positions

In `src/types.ts` every statement node and `CallExpression` carry
`line`/`column`, but `NumberLiteral`, `StringLiteral`, `BooleanLiteral`,
`NilLiteral` and `Identifier` (and the index/array/unary/binary expression
nodes) have no position fields at all, and the evaluator attributes errors at
those nodes to line 0, column 0 (interpreter.ts 287 for identifiers), which
the formatter then omits. -/

/-- The expression statement `x` whose identifier's originating token is at
line 1, column 1. -/
def c6ident : Program := ⟨[.exprStmt (.ident "x") 1 1]⟩

/-- The expression statement `g()` whose call token is at line 1, column 1. -/
def c6call : Program := ⟨[.exprStmt (.call "g" [] 1 1) 1 1]⟩

/-- C6 counterexample: the program consisting of the lone identifier `x`,
whose originating token is at line 1, column 1, fails with an error that
carries no position at all — the identifier node has no line/column to
preserve — contradicting "identifier nodes preserve the line and column of
their originating token for error attribution". -/
theorem C6_counterexample :
    (interpret 10 c6ident "<stdin>").map InterpResult.error =
      some (some "RuntimeError: Undefined variable: 'x'") := by rfl

/-- C6 amended: statement nodes and call nodes carry and use their
originating token's line and column (an undefined-function error at a call
node is attributed to the call's position), but number/string/boolean/nil
literal, identifier, index, array, unary and binary expression nodes carry no
position: an error raised at an identifier is attributed to line 0, column 0
and its formatted message shows no location. -/
theorem C6_node_positions_amended :
    (∀ (cfg : Cfg) (file : String) (fuel : Nat) (name : String) (line col env : Nat) (st : State),
        st.steps < STEP_LIMIT →
        envGet { st with steps := st.steps + 1 } env name = none →
        evaluateExpression cfg file (fuel+1) (.call name [] line col) env st =
          .err (.runtime ("Undefined function: '" ++ name ++ "'") file line col st.callStack)
            { st with steps := st.steps + 1 }) ∧
    (∀ (cfg : Cfg) (file : String) (fuel : Nat) (name : String) (env : Nat) (st : State),
        st.steps < STEP_LIMIT →
        envGet { st with steps := st.steps + 1 } env name = none →
        evaluateExpression cfg file (fuel+1) (.ident name) env st =
          .err (.runtime ("Undefined variable: '" ++ name ++ "'") file 0 0 st.callStack)
            { st with steps := st.steps + 1 }) ∧
    (interpret 10 c6call "<stdin>").map InterpResult.error =
      some (some "RuntimeError: Undefined function: 'g'\n  at <stdin>:1:1") := by
  refine ⟨?_, ?_, by rfl⟩
  · intro cfg file fuel name line col env st hstep hget
    rw [evaluateExpression]
    dsimp only [stepCheck]
    rw [if_neg (show ¬(st.steps + 1 > STEP_LIMIT) by omega)]
    simp only [hget]
  · intro cfg file fuel name env st hstep hget
    rw [evaluateExpression]
    dsimp only [stepCheck]
    rw [if_neg (show ¬(st.steps + 1 > STEP_LIMIT) by omega)]
    simp only [hget]

/-- Witness for the amended C6 theorem at concrete inputs: calling the
unbound `g` at line 3, column 7 is attributed to `3:7`, while the unbound
identifier `x` — whatever position its token had — is attributed to `0:0`. -/
theorem C6_witness :
    evaluateExpression ⟨[], false⟩ "<stdin>" 5 (.call "g" [] 3 7) 0 ST0 =
      .err (.runtime "Undefined function: 'g'" "<stdin>" 3 7 []) { ST0 with steps := 1 } ∧
    evaluateExpression ⟨[], false⟩ "<stdin>" 5 (.ident "x") 0 ST0 =
      .err (.runtime "Undefined variable: 'x'" "<stdin>" 0 0 []) { ST0 with steps := 1 } :=
  ⟨C6_node_positions_amended.1 ⟨[], false⟩ "<stdin>" 4 "g" 3 7 0 ST0 (by decide) (by rfl),
   C6_node_positions_amended.2.1 ⟨[], false⟩ "<stdin>" 4 "x" 0 ST0 (by decide) (by rfl)⟩

/-! ## C7 — error string shapes

`LuxbinError.format` (lexer/parser errors) appends ` at FILE:LINE:COLUMN`
inline, but only when `line > 0`; `RuntimeError.format` puts the position on
its own indented line, only when `line > 0`, followed by one line per frame.
Runtime errors raised at nodes without positions (identifier, unary, binary
— including division by zero — and index expressions) carry line 0 and so
include no location at all. -/

/-- `let x = 1 / 0`: the division-by-zero error is raised inside a binary
expression node, which carries no position. -/
def c7div : Program :=
  ⟨[.letDecl "x" none (some (.binary "/" (.numberLit 1 false) (.numberLit 0 false))) 1 1]⟩

/-- `z = 1` at line 3, column 5, with `z` unbound: assignment statements do
carry a position. -/
def c7assign : Program := ⟨[.assign "z" (.numberLit 1 false) 3 5]⟩

/-- C7 counterexample: the division-by-zero runtime error — raised inside
expression evaluation — is formatted as exactly `RuntimeError: Division by
zero`, with no file, line or column, refuting "every runtime error ...
includes the file, line, and column of the offending node in its formatted
message". -/
theorem C7_counterexample :
    (interpret 10 c7div "<stdin>").map InterpResult.error =
      some (some "RuntimeError: Division by zero") := by rfl

/-- C7 amended: lexer/parser error strings have the shape
`KIND: message at FILE:LINE:COLUMN` when a positive line is recorded and
`KIND: message` otherwise; runtime error strings have the shape
`RuntimeError: message`, then a line `  at FILE:LINE:COLUMN` when a positive
line is recorded, then one `  at NAME (FILE:LINE:COLUMN)` line per call
frame; errors raised at statements and call nodes carry their node's
position, while errors raised at position-less expression nodes (such as
division by zero) carry line 0 and include no location. -/
theorem strAppend_assoc (a b c : String) : a ++ b ++ c = a ++ (b ++ c) := by
  apply String.ext
  simp [String.data_append]

theorem C7_error_format_amended :
    (∀ (name msg file : String) (line col : Nat), 0 < line →
        luxbinErrorFormat name msg file line col =
          name ++ ": " ++ msg ++ " at " ++ file ++ ":" ++ toString line ++ ":" ++ toString col) ∧
    (∀ (name msg file : String) (col : Nat),
        luxbinErrorFormat name msg file 0 col = name ++ ": " ++ msg) ∧
    (∀ (msg file : String) (line col : Nat) (stack : List StackFrame) (f : StackFrame),
        runtimeErrorFormat msg file line col (stack ++ [f]) =
          runtimeErrorFormat msg file line col stack ++ frameLine f) ∧
    (∀ (msg file : String) (line col : Nat), 0 < line →
        runtimeErrorFormat msg file line col [] =
          "RuntimeError: " ++ msg ++ "\n  at " ++ file ++ ":" ++ toString line ++ ":" ++ toString col) ∧
    (∀ (msg file : String) (col : Nat),
        runtimeErrorFormat msg file 0 col [] = "RuntimeError: " ++ msg) ∧
    (interpret 10 c7assign "<stdin>").map InterpResult.error =
      some (some "RuntimeError: Undefined variable: 'z'\n  at <stdin>:3:5") ∧
    (interpret 10 c7div "<stdin>").map InterpResult.error =
      some (some "RuntimeError: Division by zero") := by
  refine ⟨?_, ?_, ?_, ?_, ?_, by rfl, by rfl⟩
  · intro name msg file line col hline
    simp [luxbinErrorFormat, hline, strAppend_assoc]
  · intro name msg file col
    simp [luxbinErrorFormat]
  · intro msg file line col stack f
    simp [runtimeErrorFormat, List.foldl_append]
  · intro msg file line col hline
    simp [runtimeErrorFormat, hline, strAppend_assoc]
  · intro msg file col
    simp [runtimeErrorFormat]

/-- Witness for the amended C7 theorem at concrete inputs. -/
theorem C7_witness :
    luxbinErrorFormat "ParseError" "Unexpected token" "a.lux" 2 9 =
      "ParseError" ++ ": " ++ "Unexpected token" ++ " at " ++ "a.lux" ++ ":" ++ toString 2 ++ ":" ++ toString 9 ∧
    luxbinErrorFormat "LexerError" "boom" "a.lux" 0 0 = "LexerError" ++ ": " ++ "boom" ∧
    runtimeErrorFormat "m" "a.lux" 1 2 ([] ++ [⟨"f", "a.lux", 3, 4⟩]) =
      runtimeErrorFormat "m" "a.lux" 1 2 [] ++ frameLine ⟨"f", "a.lux", 3, 4⟩ ∧
    runtimeErrorFormat "m" "a.lux" 1 2 [] =
      "RuntimeError: " ++ "m" ++ "\n  at " ++ "a.lux" ++ ":" ++ toString 1 ++ ":" ++ toString 2 ∧
    runtimeErrorFormat "m" "a.lux" 0 2 [] = "RuntimeError: " ++ "m" :=
  ⟨C7_error_format_amended.1 "ParseError" "Unexpected token" "a.lux" 2 9 (by decide),
   C7_error_format_amended.2.1 "LexerError" "boom" "a.lux" 0,
   C7_error_format_amended.2.2.1 "m" "a.lux" 1 2 [] ⟨"f", "a.lux", 3, 4⟩,
   C7_error_format_amended.2.2.2.1 "m" "a.lux" 1 2 (by decide),
   C7_error_format_amended.2.2.2.2.1 "m" "a.lux" 2⟩

/-! ## Concrete programs for C8, C9 and C10 -/

/-- C10: `f`'s body raises; the call in the try body leaves its frame behind. -/
def c10prog : Program :=
  ⟨[.funcDecl "f" [] none [.exprStmt (.ident "boom") 2 3] 1 1,
    .tryCatch [.exprStmt (.call "f" [] 4 3) 4 3] "e" [] 3 1,
    .exprStmt (.ident "y") 6 1]⟩

/-- C10 control: a normally-returning call pops its frame. -/
def c10ok : Program :=
  ⟨[.funcDecl "g" [] none [] 1 1,
    .exprStmt (.call "g" [] 2 1) 2 1,
    .exprStmt (.ident "z") 3 1]⟩

/-- A module defining one function. -/
def utilProg : Program := ⟨[.funcDecl "u" [] none [] 1 1]⟩

/-- A main program importing the same module twice. -/
def mainTwice : Program := ⟨[.importStmt "util" 1 1, .importStmt "util" 2 1]⟩

def fsysTwice : List (String × Program) :=
  [("/m/main.lux", mainTwice), ("/m/util.lux", utilProg)]

/-- A module whose execution fails. -/
def badProg : Program := ⟨[.exprStmt (.ident "nope") 1 1]⟩

/-- A main program importing the failing module twice, each time under a
try/catch so execution continues. -/
def mainRetry : Program :=
  ⟨[.tryCatch [.importStmt "bad" 2 3] "e" [] 1 1,
    .tryCatch [.importStmt "bad" 5 3] "e" [] 4 1]⟩

def fsysRetry : List (String × Program) :=
  [("/m/main.lux", mainRetry), ("/m/bad.lux", badProg)]

/-- A two-module import cycle reached from a main file. -/
def aProg : Program := ⟨[.importStmt "b" 1 1]⟩
def bProg : Program := ⟨[.importStmt "a" 1 1]⟩
def mainCirc : Program := ⟨[.importStmt "a" 1 1]⟩

def fsysCirc : List (String × Program) :=
  [("/m/main.lux", mainCirc), ("/m/a.lux", aProg), ("/m/b.lux", bProg)]

/-- Three modules that together exercise every branch of the export rule: a
function declaration (constant), a non-constant binding holding that function
value, a constant data binding, a non-constant data binding, and a constant
that collides with the `println` built-in already present in the global
environment. -/
def expLib1 : Program :=
  ⟨[.funcDecl "f" [] none [] 1 1,
    .letDecl "g" none (some (.ident "f")) 2 1]⟩

def expLib2 : Program :=
  ⟨[.constDecl "C" none (.numberLit 4 false) 1 1,
    .letDecl "d" none (some (.numberLit 3 false)) 2 1]⟩

def expLib3 : Program :=
  ⟨[.constDecl "println" none (.numberLit 9 false) 1 1]⟩

def mainExp : Program :=
  ⟨[.importStmt "lib1" 1 1, .importStmt "lib2" 2 1, .importStmt "lib3" 3 1]⟩

def fsysExp : List (String × Program) :=
  [("/m/main.lux", mainExp), ("/m/lib1.lux", expLib1), ("/m/lib2.lux", expLib2),
   ("/m/lib3.lux", expLib3)]

/-! ## C10 — call frames leak on error unwinding

interpreter.ts 338-349: the frame pushed for a user-function call is popped
after `executeBlock` returns; a throw inside the body skips the pop, so a
caught error leaves the dead call's frame on the stack, and every later
error snapshot carries it. -/

/-- State after `func f` of `c10prog`. -/
def c10ST1 : State :=
  { envs := [⟨[("print", .builtin "print", true), ("println", .builtin "println", true),
              ("to_string", .builtin "to_string", true), ("push", .builtin "push", true),
              ("pop", .builtin "pop", true), ("f", .funcRef 0, true)], none⟩],
    arrays := [], closures := [⟨"f", [], none, [.exprStmt (.ident "boom") 2 3], 0⟩],
    steps := 1, callStack := [], output := [], cache := [], loading := [],
    globalRef := 0, execCount := [] }

/-- State after the try/catch of `c10prog`: the catch absorbed `f`'s error,
but `f`'s frame (pushed at the call site, line 4 column 3) is still on the
call stack. -/
def c10ST2 : State :=
  { envs := [⟨[("print", .builtin "print", true), ("println", .builtin "println", true),
              ("to_string", .builtin "to_string", true), ("push", .builtin "push", true),
              ("pop", .builtin "pop", true), ("f", .funcRef 0, true)], none⟩,
             ⟨[], some 0⟩, ⟨[], some 0⟩,
             ⟨[("e", .str "Undefined variable: 'boom'", false)], some 0⟩],
    arrays := [], closures := [⟨"f", [], none, [.exprStmt (.ident "boom") 2 3], 0⟩],
    steps := 6, callStack := [⟨"f", "<stdin>", 4, 3⟩], output := [], cache := [],
    loading := [], globalRef := 0, execCount := [] }

/-- State after `func g` of `c10ok`. -/
def c10okST1 : State :=
  { envs := [⟨[("print", .builtin "print", true), ("println", .builtin "println", true),
              ("to_string", .builtin "to_string", true), ("push", .builtin "push", true),
              ("pop", .builtin "pop", true), ("g", .funcRef 0, true)], none⟩],
    arrays := [], closures := [⟨"g", [], none, [], 0⟩], steps := 1, callStack := [],
    output := [], cache := [], loading := [], globalRef := 0, execCount := [] }

/-- State after the completed call `g()` of `c10ok`: the frame was popped. -/
def c10okST2 : State :=
  { envs := [⟨[("print", .builtin "print", true), ("println", .builtin "println", true),
              ("to_string", .builtin "to_string", true), ("push", .builtin "push", true),
              ("pop", .builtin "pop", true), ("g", .funcRef 0, true)], none⟩,
             ⟨[], some 0⟩],
    arrays := [], closures := [⟨"g", [], none, [], 0⟩], steps := 3, callStack := [],
    output := [], cache := [], loading := [], globalRef := 0, execCount := [] }

/-- C10: in `c10prog`, the call `f()` at line 4, column 3 raises inside `f`'s
body, the enclosing try/catch absorbs the error, and the already-unwound
call's frame is never popped: the final top-level error — an unrelated
undefined variable at line 6 — is formatted with the stale `at f
(<stdin>:4:3)` frame, and the interpreter state still carries that frame.
In `c10ok` the call completes normally, its frame is popped, and the later
error carries no frames. -/
theorem C10_stale_call_frame :
    (interpret 12 c10prog "<stdin>").map InterpResult.error =
      some (some "RuntimeError: Undefined variable: 'y'\n  at f (<stdin>:4:3)") ∧
    (interpret 12 c10prog "<stdin>").map callStackOf =
      some [⟨"f", "<stdin>", 4, 3⟩] ∧
    (interpret 12 c10ok "<stdin>").map InterpResult.error =
      some (some "RuntimeError: Undefined variable: 'z'") ∧
    (interpret 12 c10ok "<stdin>").map callStackOf = some [] := by
  have hb : executeBlock ⟨[], false⟩ "<stdin>" 12 c10prog.body 0 ST0 =
      .err (.runtime "Undefined variable: 'y'" "<stdin>" 0 0 [⟨"f", "<stdin>", 4, 3⟩])
        { c10ST2 with steps := 8 } := by
    calc executeBlock ⟨[], false⟩ "<stdin>" 12 c10prog.body 0 ST0
        = executeBlock ⟨[], false⟩ "<stdin>" 11
            [.tryCatch [.exprStmt (.call "f" [] 4 3) 4 3] "e" [] 3 1,
             .exprStmt (.ident "y") 6 1] 0 c10ST1 :=
          executeBlock_cons_ok _ _ _ _ _ _ _ _ (by rfl)
      _ = executeBlock ⟨[], false⟩ "<stdin>" 10 [.exprStmt (.ident "y") 6 1] 0 c10ST2 :=
          executeBlock_cons_ok _ _ _ _ _ _ _ _ (by rfl)
      _ = .err (.runtime "Undefined variable: 'y'" "<stdin>" 0 0 [⟨"f", "<stdin>", 4, 3⟩])
            { c10ST2 with steps := 8 } := by rfl
  have hb2 : executeBlock ⟨[], false⟩ "<stdin>" 12 c10ok.body 0 ST0 =
      .err (.runtime "Undefined variable: 'z'" "<stdin>" 0 0 [])
        { c10okST2 with steps := 5 } := by
    calc executeBlock ⟨[], false⟩ "<stdin>" 12 c10ok.body 0 ST0
        = executeBlock ⟨[], false⟩ "<stdin>" 11
            [.exprStmt (.call "g" [] 2 1) 2 1, .exprStmt (.ident "z") 3 1] 0 c10okST1 :=
          executeBlock_cons_ok _ _ _ _ _ _ _ _ (by rfl)
      _ = executeBlock ⟨[], false⟩ "<stdin>" 10 [.exprStmt (.ident "z") 3 1] 0 c10okST2 :=
          executeBlock_cons_ok _ _ _ _ _ _ _ _ (by rfl)
      _ = .err (.runtime "Undefined variable: 'z'" "<stdin>" 0 0 [])
            { c10okST2 with steps := 5 } := by rfl
  rw [interpret_run 12 c10prog "<stdin>", hb, interpret_run 12 c10ok "<stdin>", hb2]
  refine ⟨by rfl, by rfl, by rfl, by rfl⟩

/-! ## C8 — import idempotence, cycles, and the loading mark

The cache does make a second import of a *successfully* executed path merge
without re-executing, and the loading set does make cycles fail with
`Circular import detected`, cleared on all exit paths.  But a module whose
execution fails is *not* cached (the cache write sits after the error check),
so importing it again lexes/parses/evaluates it a second time — refuting the
blanket "at most once per loader lifetime". -/

/-- State after the first import of `util`: executed once (`execCount` 1),
cached, exports merged, loading mark cleared. -/
def impST1 : State :=
  { envs := [⟨[("print", .builtin "print", true), ("println", .builtin "println", true),
              ("to_string", .builtin "to_string", true), ("push", .builtin "push", true),
              ("pop", .builtin "pop", true), ("u", .funcRef 0, true)], none⟩,
             ⟨[("u", .funcRef 0, true)], some 0⟩],
    arrays := [], closures := [⟨"u", [], none, [], 1⟩], steps := 1, callStack := [],
    output := [], cache := [("/m/util.lux", 1)], loading := [], globalRef := 0,
    execCount := [("/m/util.lux", 1)] }

/-- State after the first failed import of `bad` (caught by the try/catch):
not cached, loading mark cleared, executed once. -/
def retryST1 : State :=
  { envs := [⟨[("print", .builtin "print", true), ("println", .builtin "println", true),
              ("to_string", .builtin "to_string", true), ("push", .builtin "push", true),
              ("pop", .builtin "pop", true)], none⟩,
             ⟨[], some 0⟩, ⟨[], some 0⟩,
             ⟨[("e", .str "Error in module /m/bad.lux: RuntimeError: Undefined variable: 'nope'", false)], some 0⟩],
    arrays := [], closures := [], steps := 2, callStack := [], output := [],
    cache := [], loading := [], globalRef := 0, execCount := [("/m/bad.lux", 1)] }

/-- State after the second failed import of `bad`: executed *again*
(`execCount` 2). -/
def retryST2 : State :=
  { envs := [⟨[("print", .builtin "print", true), ("println", .builtin "println", true),
              ("to_string", .builtin "to_string", true), ("push", .builtin "push", true),
              ("pop", .builtin "pop", true)], none⟩,
             ⟨[], some 0⟩, ⟨[], some 0⟩,
             ⟨[("e", .str "Error in module /m/bad.lux: RuntimeError: Undefined variable: 'nope'", false)], some 0⟩,
             ⟨[], some 0⟩, ⟨[], some 0⟩,
             ⟨[("e", .str "Error in module /m/bad.lux: RuntimeError: Undefined variable: 'nope'", false)], some 0⟩],
    arrays := [], closures := [], steps := 4, callStack := [], output := [],
    cache := [], loading := [], globalRef := 0, execCount := [("/m/bad.lux", 2)] }

/-- Final state of the circular-import run: both module executions were
begun, the cycle was detected, and both loading marks were cleared. -/
def circST : State :=
  { envs := [⟨[("print", .builtin "print", true), ("println", .builtin "println", true),
              ("to_string", .builtin "to_string", true), ("push", .builtin "push", true),
              ("pop", .builtin "pop", true)], none⟩,
             ⟨[], some 0⟩, ⟨[], some 0⟩],
    arrays := [], closures := [], steps := 1, callStack := [], output := [],
    cache := [], loading := [], globalRef := 0,
    execCount := [("/m/a.lux", 1), ("/m/b.lux", 1)] }

theorem twice_block :
    executeBlock ⟨fsysTwice, true⟩ "/m/main.lux" 30 mainTwice.body 0 ST0 =
      .ok .normal { impST1 with steps := 2 } := by
  calc executeBlock ⟨fsysTwice, true⟩ "/m/main.lux" 30 mainTwice.body 0 ST0
      = executeBlock ⟨fsysTwice, true⟩ "/m/main.lux" 29 [.importStmt "util" 2 1] 0 impST1 :=
        executeBlock_cons_ok _ _ _ _ _ _ _ _ (by rfl)
    _ = .ok .normal { impST1 with steps := 2 } := by rfl

theorem retry_block :
    executeBlock ⟨fsysRetry, true⟩ "/m/main.lux" 30 mainRetry.body 0 ST0 =
      .ok .normal retryST2 := by
  calc executeBlock ⟨fsysRetry, true⟩ "/m/main.lux" 30 mainRetry.body 0 ST0
      = executeBlock ⟨fsysRetry, true⟩ "/m/main.lux" 29
          [.tryCatch [.importStmt "bad" 5 3] "e" [] 4 1] 0 retryST1 :=
        executeBlock_cons_ok _ _ _ _ _ _ _ _ (by rfl)
    _ = .ok .normal retryST2 := by rfl

theorem circ_block :
    executeBlock ⟨fsysCirc, true⟩ "/m/main.lux" 30 mainCirc.body 0 ST0 =
      .err (.plain "Error in module /m/a.lux: Error in module /m/b.lux: Circular import detected: /m/a.lux")
        circST := by rfl

/-- C8 counterexample: the module `/m/bad.lux` fails on its first import; the
failed execution is not cached, so the second import of the same resolved
path within the same loader lifetime lexes, parses and evaluates it a second
time (`execCount` ends at 2), refuting "evaluated at most once ... per loader
lifetime". -/
theorem C8_counterexample :
    (ModuleLoader.runFile 30 fsysRetry "/m/main.lux").map (execCountOf "/m/bad.lux") =
      some (some 2) ∧
    (ModuleLoader.runFile 30 fsysRetry "/m/main.lux").map RunResult.error = some none := by
  rw [runFile_run 30 fsysRetry "/m/main.lux" mainRetry (by rfl), retry_block]
  exact ⟨rfl, rfl⟩

theorem envDefine_execCount (st : State) (e : Nat) (n : String) (v : LuxValue)
    (c : Bool) : (envDefine st e n v c).execCount = st.execCount := by
  unfold envDefine
  split <;> rfl

theorem mergeOne_execCount (m : Nat) (st : State) (n : String) :
    (mergeOne m st n).execCount = st.execCount := by
  unfold mergeOne
  split
  · rfl
  · split
    · split
      · rfl
      · exact envDefine_execCount _ _ _ _ _
    · split
      · split
        · rfl
        · exact envDefine_execCount _ _ _ _ _
      · rfl

theorem mergeExports_execCount (st : State) (e : Nat) :
    (mergeExports st e).execCount = st.execCount := by
  unfold mergeExports
  generalize getOwnNames st e = names
  induction names generalizing st with
  | nil => rfl
  | cons n ns ih => rw [List.foldl_cons, ih, mergeOne_execCount]

/-- C8 amended: an import whose resolved path is in the loading set fails
with `Circular import detected` and the state untouched; an import whose
resolved path is cached merges the cached environment and performs no
evaluation (`execCount` untouched, since `mergeExports` never changes it); a
successfully executed module is cached, so importing it twice executes it
once; but a module execution that *fails* is not cached, and a later import
of the same path evaluates it again; the loading mark is cleared on success
and on failure alike. -/
theorem C8_import_once_amended :
    (∀ (cfg : Cfg) (fuel : Nat) (p f : String) (st : State),
        resolveImport p f ∈ st.loading →
        importModule cfg (fuel+1) p f st =
          .err (.plain ("Circular import detected: " ++ resolveImport p f)) st) ∧
    (∀ (cfg : Cfg) (fuel : Nat) (p f : String) (st : State) (envRef : Nat),
        resolveImport p f ∉ st.loading →
        lookupName st.cache (resolveImport p f) = some envRef →
        importModule cfg (fuel+1) p f st = .ok () (mergeExports st envRef)) ∧
    (∀ (st : State) (e : Nat), (mergeExports st e).execCount = st.execCount) ∧
    (ModuleLoader.runFile 30 fsysTwice "/m/main.lux").map (execCountOf "/m/util.lux") =
      some (some 1) ∧
    (ModuleLoader.runFile 30 fsysTwice "/m/main.lux").map RunResult.error = some none ∧
    (ModuleLoader.runFile 30 fsysTwice "/m/main.lux").map (globalBindingOf "u") =
      some (some (.funcRef 0, true)) ∧
    (ModuleLoader.runFile 30 fsysCirc "/m/main.lux").map RunResult.error =
      some (some "Error in module /m/a.lux: Error in module /m/b.lux: Circular import detected: /m/a.lux") ∧
    (ModuleLoader.runFile 30 fsysCirc "/m/main.lux").map loadingOf = some [] ∧
    (ModuleLoader.runFile 30 fsysRetry "/m/main.lux").map loadingOf = some [] := by
  refine ⟨?_, ?_, mergeExports_execCount, ?_⟩
  · intro cfg fuel p f st h
    rw [importModule]
    simp only [h, if_pos]
  · intro cfg fuel p f st envRef h1 h2
    rw [importModule]
    simp only [if_neg h1, h2]
  · rw [runFile_run 30 fsysTwice "/m/main.lux" mainTwice (by rfl), twice_block,
        runFile_run 30 fsysCirc "/m/main.lux" mainCirc (by rfl), circ_block,
        runFile_run 30 fsysRetry "/m/main.lux" mainRetry (by rfl), retry_block]
    exact ⟨rfl, rfl, rfl, rfl, rfl, rfl⟩

/-- Witness for the universal parts of the amended C8 theorem at concrete
inputs. -/
theorem C8_witness :
    importModule ⟨[], true⟩ 5 "a" "/m/b.lux" { ST0 with loading := ["/m/a.lux"] } =
      .err (.plain ("Circular import detected: " ++ resolveImport "a" "/m/b.lux"))
        { ST0 with loading := ["/m/a.lux"] } ∧
    importModule ⟨[], true⟩ 5 "util" "/m/main.lux" { ST0 with cache := [("/m/util.lux", 0)] } =
      .ok () (mergeExports { ST0 with cache := [("/m/util.lux", 0)] } 0) :=
  ⟨C8_import_once_amended.1 ⟨[], true⟩ 4 "a" "/m/b.lux"
      { ST0 with loading := ["/m/a.lux"] } (by decide),
   C8_import_once_amended.2.1 ⟨[], true⟩ 4 "util" "/m/main.lux"
      { ST0 with cache := [("/m/util.lux", 0)] } 0 (by decide) (by rfl)⟩

/-! ## C9 — the export rule

`mergeExports` iterates the module's own names: function- and builtin-valued
bindings are propagated with their constness, constant data bindings are
propagated as constants, non-constant data bindings are skipped, and nothing
is propagated over a name the global environment already has. -/

/-- What one module binding contributes to the global environment. -/
def exportRule : Option (LuxValue × Bool) → Option (LuxValue × Bool)
  | some (val, c) =>
    if isFuncOrBuiltin val then some (val, c)
    else if c then some (val, true) else none
  | none => none

/-- The loader's global environment: present in the heap and parentless. -/
def GlobalOk (st : State) : Prop :=
  ∃ gd, st.envs.get? st.globalRef = some gd ∧ gd.parent = none

theorem lookupName_varsSet_ne (vars : List (String × LuxValue × Bool))
    (n name : String) (w : LuxValue) (c : Bool) (h : n ≠ name) :
    lookupName (varsSet vars n w c) name = lookupName vars name := by
  induction vars with
  | nil => simp [varsSet, lookupName, h]
  | cons p rest ih =>
    rcases p with ⟨k, v, b⟩
    by_cases hk : k = n
    · subst hk
      simp [varsSet, lookupName, h]
    · simp [varsSet, lookupName, hk, ih]

theorem envDefine_globalRef (st : State) (e : Nat) (n : String) (v : LuxValue)
    (c : Bool) : (envDefine st e n v c).globalRef = st.globalRef := by
  unfold envDefine
  split <;> rfl

theorem envDefine_get?_ne (st : State) (e e' : Nat) (n : String) (v : LuxValue)
    (c : Bool) (h : e ≠ e') :
    (envDefine st e' n v c).envs.get? e = st.envs.get? e := by
  unfold envDefine
  split
  · rfl
  · simp only [List.get?_eq_getElem?]
    exact List.getElem?_set_ne (fun he => h he.symm)

/-- `define` into a present frame rewrites exactly that frame's `vars`. -/
theorem envDefine_get?_self (st : State) (g : Nat) (gd : EnvData)
    (hg : st.envs.get? g = some gd) (n : String) (v : LuxValue) (c : Bool) :
    (envDefine st g n v c).envs.get? g = some ⟨varsSet gd.vars n v c, gd.parent⟩ := by
  have hg' : st.envs[g]? = some gd := by rw [← List.get?_eq_getElem?]; exact hg
  unfold envDefine
  rw [hg, List.get?_eq_getElem?, List.getElem?_set_self', hg']
  rfl

/-- `define` into a present frame: the defined name's entry becomes the
written pair, any other name's entry is untouched. -/
theorem getOwnEntry_envDefine (st : State) (g : Nat) (gd : EnvData)
    (hg : st.envs.get? g = some gd) (n name : String) (v : LuxValue) (c : Bool) :
    getOwnEntry (envDefine st g n v c) g name =
      if n = name then some (v, c) else getOwnEntry st g name := by
  unfold getOwnEntry
  rw [envDefine_get?_self st g gd hg n v c, hg]
  by_cases hn : n = name
  · subst hn
    rw [if_pos rfl]
    exact lookupName_varsSet gd.vars n v c
  · rw [if_neg hn]
    exact lookupName_varsSet_ne gd.vars n name v c hn

/-- `envDefine` keeps the frame's parent. -/
theorem envDefine_parent (st : State) (g : Nat) (gd : EnvData)
    (hg : st.envs.get? g = some gd) (n : String) (v : LuxValue) (c : Bool) :
    ∃ vars', (envDefine st g n v c).envs.get? g = some ⟨vars', gd.parent⟩ := by
  have hg' : st.envs[g]? = some gd := by rw [← List.get?_eq_getElem?]; exact hg
  unfold envDefine
  rw [hg]
  refine ⟨varsSet gd.vars n v c, ?_⟩
  rw [List.get?_eq_getElem?, List.getElem?_set_self', hg']
  rfl

/-- With a parentless global frame, `has` is exactly own-entry presence. -/
theorem envHas_global (st : State) (gd : EnvData)
    (hg : st.envs.get? st.globalRef = some gd) (hp : gd.parent = none)
    (name : String) :
    envHas st st.globalRef name = (getOwnEntry st st.globalRef name).isSome := by
  unfold envHas envHasAux getOwnEntry
  rw [hg]
  dsimp only
  cases hl : lookupName gd.vars name with
  | some p => rfl
  | none => rw [hp]; rfl

theorem getOwnEntry_congr (st st' : State) (e : Nat)
    (h : st'.envs.get? e = st.envs.get? e) (name : String) :
    getOwnEntry st' e name = getOwnEntry st e name := by
  unfold getOwnEntry
  rw [h]

theorem lookupName_eq_none {α : Type} (l : List (String × α)) (name : String)
    (h : name ∉ l.map Prod.fst) : lookupName l name = none := by
  induction l with
  | nil => rfl
  | cons p rest ih =>
    simp only [List.map_cons, List.mem_cons] at h
    push_neg at h
    unfold lookupName
    rw [if_neg (fun he => h.1 he.symm)]
    exact ih h.2

theorem mergeOne_globalRef (m : Nat) (st : State) (n : String) :
    (mergeOne m st n).globalRef = st.globalRef := by
  unfold mergeOne
  repeat' split
  all_goals first | rfl | exact envDefine_globalRef _ _ _ _ _

theorem mergeOne_get?_ne (m : Nat) (st : State) (n : String) (e : Nat)
    (h : e ≠ st.globalRef) :
    (mergeOne m st n).envs.get? e = st.envs.get? e := by
  unfold mergeOne
  repeat' split
  all_goals first | rfl | exact envDefine_get?_ne st e st.globalRef _ _ _ h

theorem mergeOne_globalOk (m : Nat) (st : State) (gd : EnvData)
    (hg : st.envs.get? st.globalRef = some gd) (hp : gd.parent = none)
    (n : String) :
    ∃ gd', (mergeOne m st n).envs.get? st.globalRef = some gd' ∧ gd'.parent = none := by
  unfold mergeOne
  repeat' split
  all_goals first
    | exact ⟨gd, hg, hp⟩
    | exact ⟨⟨varsSet gd.vars _ _ _, gd.parent⟩,
        envDefine_get?_self st st.globalRef gd hg _ _ _, hp⟩

/-- Merging a name other than `name` leaves `name`'s global entry alone. -/
theorem getOwnEntry_mergeOne_ne (m : Nat) (st : State) (gd : EnvData)
    (hg : st.envs.get? st.globalRef = some gd) (n name : String) (hn : n ≠ name) :
    getOwnEntry (mergeOne m st n) st.globalRef name =
      getOwnEntry st st.globalRef name := by
  unfold mergeOne
  repeat' split
  all_goals first
    | rfl
    | rw [getOwnEntry_envDefine st st.globalRef gd hg n name, if_neg hn]

/-- Merging a name the global environment already has changes nothing: no
overwrite on any branch. -/
theorem mergeOne_has (m : Nat) (st : State) (gd : EnvData)
    (hg : st.envs.get? st.globalRef = some gd) (hp : gd.parent = none)
    (n : String) (hs : (getOwnEntry st st.globalRef n).isSome = true) :
    mergeOne m st n = st := by
  have hh : envHas st st.globalRef n = true := by
    rw [envHas_global st gd hg hp n]; exact hs
  unfold mergeOne
  repeat' split
  all_goals rfl

/-- Merging a name the global environment lacks installs exactly what the
export rule prescribes for the module's own entry. -/
theorem getOwnEntry_mergeOne_self (m : Nat) (st : State) (gd : EnvData)
    (hg : st.envs.get? st.globalRef = some gd) (hp : gd.parent = none)
    (n : String) (hnone : getOwnEntry st st.globalRef n = none) :
    getOwnEntry (mergeOne m st n) st.globalRef n =
      exportRule (getOwnEntry st m n) := by
  have hh : envHas st st.globalRef n = false := by
    rw [envHas_global st gd hg hp n, hnone]; rfl
  unfold mergeOne exportRule
  cases he : getOwnEntry st m n with
  | none => simpa using hnone
  | some p =>
    rcases p with ⟨val, c⟩
    dsimp only
    by_cases hf : isFuncOrBuiltin val = true
    · rw [if_pos hf, if_pos hf, if_neg (by rw [hh]; simp)]
      rw [getOwnEntry_envDefine st st.globalRef gd hg n n, if_pos rfl]
    · rw [if_neg hf, if_neg hf]
      by_cases hc : c = true
      · rw [if_pos hc, if_pos hc, if_neg (by rw [hh]; simp)]
        rw [getOwnEntry_envDefine st st.globalRef gd hg n n, if_pos rfl]
      · rw [if_neg hc, if_neg hc]
        exact hnone

/-- The export fold, one name at a time: names other than `name` never touch
`name`'s global entry; when `name` is among the (distinct) folded names, its
global entry afterwards is its old entry if it had one, and otherwise exactly
what the export rule prescribes. -/
theorem mergeFold_global (m : Nat) (name : String) :
    ∀ (ns : List String) (st : State) (gd : EnvData),
      m ≠ st.globalRef →
      st.envs.get? st.globalRef = some gd → gd.parent = none → ns.Nodup →
      ((name ∉ ns →
          getOwnEntry (ns.foldl (mergeOne m) st) st.globalRef name =
            getOwnEntry st st.globalRef name) ∧
       (name ∈ ns → getOwnEntry st st.globalRef name = none →
          getOwnEntry (ns.foldl (mergeOne m) st) st.globalRef name =
            exportRule (getOwnEntry st m name)) ∧
       (name ∈ ns → (getOwnEntry st st.globalRef name).isSome = true →
          getOwnEntry (ns.foldl (mergeOne m) st) st.globalRef name =
            getOwnEntry st st.globalRef name)) := by
  intro ns
  induction ns with
  | nil =>
    intro st gd hm hg hp hd
    exact ⟨fun _ => rfl, fun h => absurd h (List.not_mem_nil name),
           fun h _ => absurd h (List.not_mem_nil name)⟩
  | cons n ns ih =>
    intro st gd hm hg hp hd
    obtain ⟨hn_notin, hnd'⟩ := List.nodup_cons.mp hd
    obtain ⟨gd', hg', hp'⟩ := mergeOne_globalOk m st gd hg hp n
    have hgr : (mergeOne m st n).globalRef = st.globalRef := mergeOne_globalRef m st n
    have hg'' : (mergeOne m st n).envs.get? (mergeOne m st n).globalRef = some gd' := by
      rw [hgr]; exact hg'
    have hm' : m ≠ (mergeOne m st n).globalRef := by rw [hgr]; exact hm
    have hmod : getOwnEntry (mergeOne m st n) m name = getOwnEntry st m name :=
      getOwnEntry_congr st (mergeOne m st n) m (mergeOne_get?_ne m st n m hm) name
    have IH := ih (mergeOne m st n) gd' hm' hg'' hp' hnd'
    rw [hgr] at IH
    rw [List.foldl_cons]
    refine ⟨?_, ?_, ?_⟩
    · intro hnot
      have hne : n ≠ name := fun he => hnot (by rw [← he]; exact List.mem_cons_self n ns)
      have hnot' : name ∉ ns := fun h => hnot (List.mem_cons_of_mem n h)
      rw [IH.1 hnot', getOwnEntry_mergeOne_ne m st gd hg n name hne]
    · intro hmem hnone
      by_cases hne : n = name
      · subst hne
        exact (IH.1 hn_notin).trans (getOwnEntry_mergeOne_self m st gd hg hp n hnone)
      · have hmem' : name ∈ ns := by
          cases List.mem_cons.mp hmem with
          | inl h => exact absurd h.symm hne
          | inr h => exact h
        have hkeep := getOwnEntry_mergeOne_ne m st gd hg n name hne
        have hnone' : getOwnEntry (mergeOne m st n) st.globalRef name = none := by
          rw [hkeep]; exact hnone
        rw [IH.2.1 hmem' hnone', hmod]
    · intro hmem hsome
      by_cases hne : n = name
      · subst hne
        rw [mergeOne_has m st gd hg hp n hsome]
        exact (ih st gd hm hg hp hnd').1 hn_notin
      · have hmem' : name ∈ ns := by
          cases List.mem_cons.mp hmem with
          | inl h => exact absurd h.symm hne
          | inr h => exact h
        have hkeep := getOwnEntry_mergeOne_ne m st gd hg n name hne
        have hsome' : (getOwnEntry (mergeOne m st n) st.globalRef name).isSome = true := by
          rw [hkeep]; exact hsome
        rw [IH.2.2 hmem' hsome', hkeep]

/-- State after importing `expLib1`: `f` (function, constant) and `g`
(function value under a non-constant binding) were merged into the global
frame. -/
def expSTa : State :=
  { envs := [⟨[("print", .builtin "print", true), ("println", .builtin "println", true),
              ("to_string", .builtin "to_string", true), ("push", .builtin "push", true),
              ("pop", .builtin "pop", true), ("f", .funcRef 0, true),
              ("g", .funcRef 0, false)], none⟩,
             ⟨[("f", .funcRef 0, true), ("g", .funcRef 0, false)], some 0⟩],
    arrays := [], closures := [⟨"f", [], none, [], 1⟩], steps := 1, callStack := [],
    output := [], cache := [("/m/lib1.lux", 1)], loading := [], globalRef := 0,
    execCount := [("/m/lib1.lux", 1)] }

/-- State after also importing `expLib2`: the constant `C` was merged, the
non-constant `d` was not. -/
def expSTb : State :=
  { envs := [⟨[("print", .builtin "print", true), ("println", .builtin "println", true),
              ("to_string", .builtin "to_string", true), ("push", .builtin "push", true),
              ("pop", .builtin "pop", true), ("f", .funcRef 0, true),
              ("g", .funcRef 0, false), ("C", .num 4, true)], none⟩,
             ⟨[("f", .funcRef 0, true), ("g", .funcRef 0, false)], some 0⟩,
             ⟨[("C", .num 4, true), ("d", .num 3, false)], some 0⟩],
    arrays := [], closures := [⟨"f", [], none, [], 1⟩], steps := 2, callStack := [],
    output := [], cache := [("/m/lib2.lux", 2), ("/m/lib1.lux", 1)], loading := [],
    globalRef := 0, execCount := [("/m/lib1.lux", 1), ("/m/lib2.lux", 1)] }

/-- State after also importing `expLib3`: the module's constant `println`
collides with the global built-in and was not merged. -/
def expST1 : State :=
  { envs := [⟨[("print", .builtin "print", true), ("println", .builtin "println", true),
              ("to_string", .builtin "to_string", true), ("push", .builtin "push", true),
              ("pop", .builtin "pop", true), ("f", .funcRef 0, true),
              ("g", .funcRef 0, false), ("C", .num 4, true)], none⟩,
             ⟨[("f", .funcRef 0, true), ("g", .funcRef 0, false)], some 0⟩,
             ⟨[("C", .num 4, true), ("d", .num 3, false)], some 0⟩,
             ⟨[("println", .num 9, true)], some 0⟩],
    arrays := [], closures := [⟨"f", [], none, [], 1⟩], steps := 3, callStack := [],
    output := [],
    cache := [("/m/lib3.lux", 3), ("/m/lib2.lux", 2), ("/m/lib1.lux", 1)],
    loading := [], globalRef := 0,
    execCount := [("/m/lib1.lux", 1), ("/m/lib2.lux", 1), ("/m/lib3.lux", 1)] }

theorem exp_block :
    executeBlock ⟨fsysExp, true⟩ "/m/main.lux" 30 mainExp.body 0 ST0 =
      .ok .normal expST1 := by
  calc executeBlock ⟨fsysExp, true⟩ "/m/main.lux" 30 mainExp.body 0 ST0
      = executeBlock ⟨fsysExp, true⟩ "/m/main.lux" 29
          [.importStmt "lib2" 2 1, .importStmt "lib3" 3 1] 0 expSTa :=
        executeBlock_cons_ok _ _ _ _ _ _ _ _ (by rfl)
    _ = executeBlock ⟨fsysExp, true⟩ "/m/main.lux" 28
          [.importStmt "lib3" 3 1] 0 expSTb :=
        executeBlock_cons_ok _ _ _ _ _ _ _ _ (by rfl)
    _ = executeBlock ⟨fsysExp, true⟩ "/m/main.lux" 27 [] 0 expST1 :=
        executeBlock_cons_ok _ _ _ _ _ _ _ _ (by rfl)
    _ = .ok .normal expST1 := executeBlock_nil _ _ 26 _ _

/-- C9: for a loader-shaped state (module environment distinct from the
parentless global frame, module names distinct), `mergeExports` leaves every
name the global environment already has untouched, and gives every other
name exactly what the export rule prescribes for the module's own entry:
function- or builtin-valued bindings with their constness, constant data as
a constant, nothing for non-constant data.  The closed conjuncts run the
three `expLib` modules end to end through the loader. -/
theorem C9_export_rule :
    (∀ (st : State) (m : Nat) (gd : EnvData) (name : String),
        m ≠ st.globalRef →
        st.envs.get? st.globalRef = some gd → gd.parent = none →
        (getOwnNames st m).Nodup →
        ((envHas st st.globalRef name = true →
            getOwnEntry (mergeExports st m) st.globalRef name =
              getOwnEntry st st.globalRef name) ∧
         (envHas st st.globalRef name = false →
            getOwnEntry (mergeExports st m) st.globalRef name =
              exportRule (getOwnEntry st m name)))) ∧
    (ModuleLoader.runFile 30 fsysExp "/m/main.lux").map RunResult.error = some none ∧
    (ModuleLoader.runFile 30 fsysExp "/m/main.lux").map (globalBindingOf "f") =
      some (some (.funcRef 0, true)) ∧
    (ModuleLoader.runFile 30 fsysExp "/m/main.lux").map (globalBindingOf "g") =
      some (some (.funcRef 0, false)) ∧
    (ModuleLoader.runFile 30 fsysExp "/m/main.lux").map (globalBindingOf "C") =
      some (some (.num 4, true)) ∧
    (ModuleLoader.runFile 30 fsysExp "/m/main.lux").map (globalBindingOf "d") = some none ∧
    (ModuleLoader.runFile 30 fsysExp "/m/main.lux").map (globalBindingOf "println") =
      some (some (.builtin "println", true)) := by
  constructor
  · intro st m gd name hm hg hp hnd
    have F := mergeFold_global m name (getOwnNames st m) st gd hm hg hp hnd
    constructor
    · intro hhas
      have hsome : (getOwnEntry st st.globalRef name).isSome = true := by
        rw [← envHas_global st gd hg hp name]; exact hhas
      unfold mergeExports
      by_cases hmem : name ∈ getOwnNames st m
      · exact F.2.2 hmem hsome
      · exact F.1 hmem
    · intro hhas
      have hnone : getOwnEntry st st.globalRef name = none := by
        have h2 := envHas_global st gd hg hp name
        rw [hhas] at h2
        cases hgo : getOwnEntry st st.globalRef name with
        | none => rfl
        | some p => rw [hgo] at h2; simp at h2
      unfold mergeExports
      by_cases hmem : name ∈ getOwnNames st m
      · exact F.2.1 hmem hnone
      · have hmodnone : getOwnEntry st m name = none := by
          unfold getOwnEntry
          cases hge : st.envs.get? m with
          | none => rfl
          | some ed =>
            apply lookupName_eq_none
            intro hmm
            apply hmem
            unfold getOwnNames
            rw [hge]
            exact hmm
        rw [F.1 hmem, hnone, hmodnone]
        rfl
  · rw [runFile_run 30 fsysExp "/m/main.lux" mainExp (by rfl), exp_block]
    exact ⟨rfl, rfl, rfl, rfl, rfl, rfl⟩

/-- A loader-shaped state for the C9 witness: the global frame holds the
`println` built-in and a non-constant `x`; the module frame holds a function
`f`, non-constant data `d`, and a constant `println` shadowing the
built-in. -/
def c9state : State :=
  { envs := [⟨[("println", .builtin "println", true), ("x", .num 1, false)], none⟩,
             ⟨[("f", .funcRef 0, true), ("d", .num 3, false), ("println", .num 9, true)], some 0⟩],
    arrays := [], closures := [], steps := 0, callStack := [], output := [],
    cache := [], loading := [], globalRef := 0, execCount := [] }

/-- Witness for the universal part of C9 at concrete inputs. -/
theorem C9_witness :
    getOwnEntry (mergeExports c9state 1) 0 "f" = exportRule (getOwnEntry c9state 1 "f") ∧
    getOwnEntry (mergeExports c9state 1) 0 "println" = getOwnEntry c9state 0 "println" ∧
    getOwnEntry (mergeExports c9state 1) 0 "d" = exportRule (getOwnEntry c9state 1 "d") :=
  ⟨(C9_export_rule.1 c9state 1 ⟨[("println", .builtin "println", true), ("x", .num 1, false)], none⟩
      "f" (by decide) rfl rfl (by decide)).2 (by rfl),
   (C9_export_rule.1 c9state 1 ⟨[("println", .builtin "println", true), ("x", .num 1, false)], none⟩
      "println" (by decide) rfl rfl (by decide)).1 (by rfl),
   (C9_export_rule.1 c9state 1 ⟨[("println", .builtin "println", true), ("x", .num 1, false)], none⟩
      "d" (by decide) rfl rfl (by decide)).2 (by rfl)⟩

/-! ## C5 — step metering and the execution budget

interpreter.ts 97-118: `step()` increments the counter and throws the budget
`RuntimeError` as soon as the counter exceeds `STEP_LIMIT`.  That throw is an
ordinary `RuntimeError`, so the user-level `try/catch` handler
(interpreter.ts 252-268) catches it like any other error: exceeding the
budget need not make the evaluation fail. -/

/-- `while 1 { }` — an unconditionally-true loop with an empty body. -/
def c5loop : Program := ⟨[.whileStmt (.numberLit 1 false) [] 1 1]⟩

/-- The same loop inside a `try` whose `catch` body is empty. -/
def c5swallow : Program :=
  ⟨[.tryCatch [.whileStmt (.numberLit 1 false) [] 2 3] "e" [] 1 1]⟩

/-- A one-statement program comfortably under the budget. -/
def c5small : Program := ⟨[.letDecl "x" none (some (.numberLit 1 false)) 1 1]⟩

/-- State at the runaway loop's entry inside `c5swallow`: one step for the
`try` statement, one for the `while` statement, and the try body's child
environment allocated. -/
def c5st2 : State :=
  { envs := [⟨[("print", .builtin "print", true), ("println", .builtin "println", true),
              ("to_string", .builtin "to_string", true), ("push", .builtin "push", true),
              ("pop", .builtin "pop", true)], none⟩, ⟨[], some 0⟩],
    arrays := [], closures := [], steps := 2, callStack := [], output := [],
    cache := [], loading := [], globalRef := 0, execCount := [] }

theorem envDefine_steps (st : State) (e : Nat) (n : String) (v : LuxValue)
    (c : Bool) : (envDefine st e n v c).steps = st.steps := by
  unfold envDefine
  split <;> rfl

/-- Running `while 1 { }` from any in-budget state with enough fuel ends in
the budget error: the counter lands at exactly `STEP_LIMIT + 1`, the call
stack and output untouched. -/
theorem whileTrue_budget (cfg : Cfg) (file : String) (env : Nat) :
    ∀ (fuel : Nat) (st : State), st.steps ≤ STEP_LIMIT →
      STEP_LIMIT + 2 - st.steps ≤ fuel →
      ∃ st', whileLoop cfg file fuel (.numberLit 1 false) [] env st =
          .err (.runtime stepLimitMsg file 0 0 st.callStack) st' ∧
        st'.steps = STEP_LIMIT + 1 ∧ st'.callStack = st.callStack ∧
        st'.output = st.output := by
  intro fuel
  induction fuel with
  | zero => intro st hs hf; exact absurd hf (by omega)
  | succ fuel ih =>
    intro st hs hf
    cases fuel with
    | zero => exact absurd hf (by omega)
    | succ g =>
      rw [whileLoop, evaluateExpression]
      dsimp only [stepCheck]
      by_cases hlim : st.steps + 1 > STEP_LIMIT
      · rw [if_pos hlim]
        exact ⟨{ st with steps := st.steps + 1 }, rfl,
          by show st.steps + 1 = STEP_LIMIT + 1; omega, rfl, rfl⟩
      · rw [if_neg hlim]
        dsimp only
        rw [show isTruthy (.num 1) = true from by decide]
        rw [if_pos rfl]
        by_cases hlim2 : st.steps + 1 + 1 > STEP_LIMIT
        · rw [if_pos hlim2]
          exact ⟨{ st with steps := st.steps + 1 + 1 }, rfl,
            by show st.steps + 1 + 1 = STEP_LIMIT + 1; omega, rfl, rfl⟩
        · rw [if_neg hlim2]
          dsimp only
          rw [executeBlock_nil cfg file g]
          dsimp only
          exact ih { st with steps := st.steps + 1 + 1, envs := st.envs ++ [⟨[], some env⟩] }
            (show st.steps + 1 + 1 ≤ STEP_LIMIT by omega)
            (show STEP_LIMIT + 2 - (st.steps + 1 + 1) ≤ g + 1 by omega)

/-- A caught error whose catch body is empty completes the `try/catch`
statement normally, with the catch variable bound to the raw message in a
fresh child environment. -/
theorem tryCatch_swallow (cfg : Cfg) (file : String) (fuel : Nat)
    (tb : List Statement) (v : String) (line col env : Nat) (st st' : State)
    (e : LuxErr) (hlt : ¬(st.steps + 1 > STEP_LIMIT))
    (hb : executeBlock cfg file (fuel+1) tb
        (allocEnv { st with steps := st.steps + 1 } (some env)).2
        (allocEnv { st with steps := st.steps + 1 } (some env)).1 = .err e st') :
    executeStatement cfg file (fuel+1+1) (.tryCatch tb v [] line col) env st =
      .ok .normal (envDefine (allocEnv st' (some env)).1 (allocEnv st' (some env)).2
        v (.str e.message) false) := by
  rw [executeStatement]
  dsimp only [stepCheck]
  rw [if_neg hlt]
  dsimp only
  rw [hb]
  dsimp only
  rw [executeBlock_nil cfg file fuel]

/-- The bare runaway loop aborts the top-level run with the budget error
after exactly `STEP_LIMIT + 1` steps. -/
theorem c5loop_run :
    ∃ st', executeBlock ⟨[], false⟩ "<stdin>" (STEP_LIMIT + 10) c5loop.body 0 ST0 =
        .err (.runtime stepLimitMsg "<stdin>" 0 0 []) st' ∧
      st'.steps = STEP_LIMIT + 1 := by
  obtain ⟨st', hw, h1, h2, h3⟩ :=
    whileTrue_budget ⟨[], false⟩ "<stdin>" 0 (STEP_LIMIT + 8)
      { ST0 with steps := ST0.steps + 1 } (by decide) (by decide)
  refine ⟨st', ?_, h1⟩
  have hstmt : executeStatement ⟨[], false⟩ "<stdin>" (STEP_LIMIT + 8 + 1)
      (.whileStmt (.numberLit 1 false) [] 1 1) 0 ST0 =
      .err (.runtime stepLimitMsg "<stdin>" 0 0 []) st' := by
    rw [executeStatement]
    dsimp only [stepCheck]
    rw [if_neg (show ¬(ST0.steps + 1 > STEP_LIMIT) by decide)]
    dsimp only
    exact hw
  show executeBlock ⟨[], false⟩ "<stdin>" (STEP_LIMIT + 8 + 1 + 1) c5loop.body 0 ST0 = _
  exact executeBlock_cons_err _ _ _ _ _ _ _ _ _ hstmt

/-- C5 counterexample: `c5swallow` exceeds the budget — its final counter is
`STEP_LIMIT + 1` — yet the evaluation does not fail: the budget error is an
ordinary runtime error and the program's own `catch` absorbs it. -/
theorem C5_counterexample :
    (interpret (STEP_LIMIT + 10) c5swallow "<stdin>").map InterpResult.error =
      some none ∧
    (interpret (STEP_LIMIT + 10) c5swallow "<stdin>").map InterpResult.steps =
      some (STEP_LIMIT + 1) := by
  obtain ⟨st', hw, h1, h2, h3⟩ :=
    whileTrue_budget ⟨[], false⟩ "<stdin>" 1 (STEP_LIMIT + 6) c5st2 (by decide) (by decide)
  have hstmt : executeStatement ⟨[], false⟩ "<stdin>" (STEP_LIMIT + 6 + 1)
      (.whileStmt (.numberLit 1 false) [] 2 3)
      (allocEnv { ST0 with steps := ST0.steps + 1 } (some 0)).2
      (allocEnv { ST0 with steps := ST0.steps + 1 } (some 0)).1 =
      .err (.runtime stepLimitMsg "<stdin>" 0 0 []) st' := by
    rw [executeStatement]
    dsimp only [stepCheck]
    rw [if_neg (show ¬((allocEnv { ST0 with steps := ST0.steps + 1 }
      (some 0)).1.steps + 1 > STEP_LIMIT) by decide)]
    dsimp only
    exact hw
  have hb : executeBlock ⟨[], false⟩ "<stdin>" (STEP_LIMIT + 6 + 1 + 1)
      [.whileStmt (.numberLit 1 false) [] 2 3]
      (allocEnv { ST0 with steps := ST0.steps + 1 } (some 0)).2
      (allocEnv { ST0 with steps := ST0.steps + 1 } (some 0)).1 =
      .err (.runtime stepLimitMsg "<stdin>" 0 0 []) st' :=
    executeBlock_cons_err _ _ _ _ _ _ _ _ _ hstmt
  have htry := tryCatch_swallow ⟨[], false⟩ "<stdin>" (STEP_LIMIT + 6 + 1)
    [.whileStmt (.numberLit 1 false) [] 2 3] "e" 1 1 0 ST0 st'
    (.runtime stepLimitMsg "<stdin>" 0 0 []) (by decide) hb
  have hrun : executeBlock ⟨[], false⟩ "<stdin>" (STEP_LIMIT + 10) c5swallow.body 0 ST0 =
      .ok .normal (envDefine (allocEnv st' (some 0)).1 (allocEnv st' (some 0)).2
        "e" (.str (LuxErr.message (.runtime stepLimitMsg "<stdin>" 0 0 []))) false) := by
    show executeBlock ⟨[], false⟩ "<stdin>" (STEP_LIMIT + 6 + 1 + 1 + 1 + 1)
      c5swallow.body 0 ST0 = _
    exact (executeBlock_cons_ok _ _ _ _ _ _ _ _ htry).trans
      (executeBlock_nil _ _ (STEP_LIMIT + 6 + 1 + 1) _ _)
  constructor
  · rw [interpret_run, hrun]
    rfl
  · rw [interpret_run, hrun]
    show some ((envDefine (allocEnv st' (some 0)).1 (allocEnv st' (some 0)).2
      "e" (.str (LuxErr.message (.runtime stepLimitMsg "<stdin>" 0 0 []))) false).steps) =
      some (STEP_LIMIT + 1)
    rw [envDefine_steps]
    show some st'.steps = some (STEP_LIMIT + 1)
    rw [h1]

/-- C5 (amended): `step()` bumps the counter by exactly one and raises the
budget `RuntimeError` — current file, line 0, column 0, call-stack
snapshot — exactly when the incremented counter exceeds `STEP_LIMIT`; a
runaway loop accordingly ends in the budget error with the counter at
exactly `STEP_LIMIT + 1`; uncaught, that error aborts the run as the
formatted "Execution limit exceeded" failure, while an under-budget program
completes unaborted.  The abort is not universal: a user `try/catch`
swallows the budget error like any other runtime error. -/
theorem C5_step_budget_amended :
    (∀ (file : String) (st : State),
        (st.steps < STEP_LIMIT →
          stepCheck file st = .ok () { st with steps := st.steps + 1 }) ∧
        (STEP_LIMIT ≤ st.steps →
          stepCheck file st =
            .err (.runtime stepLimitMsg file 0 0 st.callStack)
              { st with steps := st.steps + 1 })) ∧
    (∀ (cfg : Cfg) (file : String) (env fuel : Nat) (st : State),
        st.steps ≤ STEP_LIMIT → STEP_LIMIT + 2 - st.steps ≤ fuel →
        ∃ st', whileLoop cfg file fuel (.numberLit 1 false) [] env st =
            .err (.runtime stepLimitMsg file 0 0 st.callStack) st' ∧
          st'.steps = STEP_LIMIT + 1 ∧ st'.callStack = st.callStack ∧
          st'.output = st.output) ∧
    (interpret (STEP_LIMIT + 10) c5loop "<stdin>").map InterpResult.error =
      some (some ("RuntimeError: " ++ stepLimitMsg)) ∧
    (interpret (STEP_LIMIT + 10) c5loop "<stdin>").map InterpResult.steps =
      some (STEP_LIMIT + 1) ∧
    (interpret 10 c5small "<stdin>").map InterpResult.error = some none ∧
    (interpret 10 c5small "<stdin>").map InterpResult.steps = some 2 := by
  obtain ⟨st', hrun, hsteps⟩ := c5loop_run
  refine ⟨fun file st => ⟨?_, ?_⟩,
    fun cfg file env fuel => whileTrue_budget cfg file env fuel, ?_, ?_, by rfl, by rfl⟩
  · intro h
    dsimp only [stepCheck]
    rw [if_neg (show ¬(st.steps + 1 > STEP_LIMIT) by omega)]
  · intro h
    dsimp only [stepCheck]
    rw [if_pos (show st.steps + 1 > STEP_LIMIT by omega)]
  · rw [interpret_run, hrun]
    rfl
  · rw [interpret_run, hrun]
    show some st'.steps = some (STEP_LIMIT + 1)
    rw [hsteps]

/-- Witness for C5 at concrete inputs: an in-budget `step()`, a tripping
`step()`, and the runaway loop started right at the limit. -/
theorem C5_witness :
    stepCheck "w" c5st2 = .ok () { c5st2 with steps := c5st2.steps + 1 } ∧
    stepCheck "w" { c5st2 with steps := STEP_LIMIT } =
      .err (.runtime stepLimitMsg "w" 0 0 c5st2.callStack)
        { c5st2 with steps := STEP_LIMIT + 1 } ∧
    (∃ st', whileLoop ⟨[], false⟩ "w" (STEP_LIMIT + 2) (.numberLit 1 false) [] 0
        { c5st2 with steps := STEP_LIMIT } =
          .err (.runtime stepLimitMsg "w" 0 0 c5st2.callStack) st' ∧
        st'.steps = STEP_LIMIT + 1 ∧ st'.callStack = c5st2.callStack ∧
        st'.output = c5st2.output) :=
  ⟨(C5_step_budget_amended.1 "w" c5st2).1 (by decide),
   (C5_step_budget_amended.1 "w" { c5st2 with steps := STEP_LIMIT }).2 (by decide),
   C5_step_budget_amended.2.1 ⟨[], false⟩ "w" 0 (STEP_LIMIT + 2)
     { c5st2 with steps := STEP_LIMIT } (by decide) (by decide)⟩

/-- A one-array state for the C2 witness. -/
def c2state : State :=
  { envs := [⟨[], none⟩], arrays := [[.num 7]], closures := [], steps := 0,
    callStack := [], output := [], cache := [], loading := [], globalRef := 0,
    execCount := [] }

/-- Witness for the amended C2 theorem at concrete inputs: `-0.5` floors to
`-1`, and the read of index `0.5` on `[7]` succeeds with the element at 0
while the read of `-0.5` fails out of bounds. -/
theorem C2_witness :
    Rat.floor (mkRat (-1) 2) = -1 ∧
    indexRead "f" c2state (.arr 0) (.num (mkRat 1 2)) =
      (if 0 ≤ Rat.floor (mkRat 1 2) ∧ Rat.floor (mkRat 1 2) < ((1 : Nat) : ℤ) then
        .ok ([LuxValue.num 7].getD (Rat.floor (mkRat 1 2)).toNat .nil)
      else
        .error (.runtime ("Index " ++ toString (Rat.floor (mkRat 1 2)) ++
          " out of bounds (length " ++ toString (1 : Nat) ++ ")") "f" 0 0 [])) :=
  ⟨C2_index_floor_amended.1 (mkRat (-1) 2) (by decide) (by decide),
   C2_index_floor_amended.2.1 "f" c2state 0 [.num 7] (mkRat 1 2) rfl⟩

end Luxbin
